import Mathlib

/-!
Verification of core LXD subsystems against their natural-language
specification: the entity filter dispatcher (instances, certificates),
the relational entity store (create/delete invariants), the warning
upsert logic, the unix device attachment engine, and the dnsmasq static
DHCP allocation reader/writer.

All definitions are shallow embeddings of the Go sources.  External
collaborators (the SQL engine, the OS filesystem) are modelled by
explicit state (lists of rows, oracle functions for `stat` and
directory listings).
-/

deriving instance DecidableEq for Except

namespace LXD

/-! ## Common helpers -/

/-- ASCII lowercasing of a string (`strings.ToLower` on the ASCII
config values and MAC addresses used here); implemented per character
so that concrete instances evaluate. -/
def strToLower (s : String) : String := String.mk (s.data.map Char.toLower)

/-- `strings.HasPrefix`. -/
def goHasPfx (s pfx : String) : Bool := pfx.toList.isPrefixOf s.toList

/-- `strings.HasSuffix`. -/
def goHasSfx (s sfx : String) : Bool := sfx.toList.isSuffixOf s.toList

/-- The decimal value of a digit list. -/
def decVal (l : List Char) : Nat :=
  l.foldl (fun acc c => acc * 10 + (c.toNat - '0'.toNat)) 0

/-- Whether a character list is a non-empty run of decimal digits. -/
def allDigits (l : List Char) : Bool := !l.isEmpty && l.all fun c => c.isDigit

/-- A SQL bind argument: every filter field of the generated mappers is
either an integer (IDs, type codes) or a string. -/
inductive SqlArg where
  | int (i : Int)
  | str (s : String)
deriving DecidableEq, Repr

/-! ## Entity filter dispatcher: instances (`GetInstances`) -/

/-- `InstanceFilter` from the generated mapper: every field is an
optional pointer (`nil` = absent).  `typ` stands for the Go field
`Type` (an `instancetype.Type` integer). -/
structure InstanceFilter where
  id : Option Int
  project : Option String
  name : Option String
  node : Option String
  typ : Option Int
deriving DecidableEq, Repr

/-- The catalogue of pre-registered instance statements
(`instanceObjects`, `instanceObjectsByID`, ...), one constructor per
`cluster.RegisterStmt` declaration. -/
inductive InstanceStmt where
  | instanceObjects
  | instanceObjectsByID
  | instanceObjectsByProject
  | instanceObjectsByProjectAndType
  | instanceObjectsByProjectAndTypeAndNode
  | instanceObjectsByProjectAndTypeAndNodeAndName
  | instanceObjectsByProjectAndTypeAndName
  | instanceObjectsByProjectAndName
  | instanceObjectsByProjectAndNameAndNode
  | instanceObjectsByProjectAndNode
  | instanceObjectsByType
  | instanceObjectsByTypeAndName
  | instanceObjectsByTypeAndNameAndNode
  | instanceObjectsByTypeAndNode
  | instanceObjectsByNode
  | instanceObjectsByNodeAndName
  | instanceObjectsByName
deriving DecidableEq, Repr

/-- The statement-selection part of `GetInstances`
(instances.mapper.go): the literal if/else chain that picks the
prepared statement and its ordered bind arguments from the set of
present filter fields, or fails when no statement matches. -/
def getInstancesStmtArgs (f : InstanceFilter) :
    Except String (InstanceStmt × List SqlArg) :=
  if f.project.isSome && f.typ.isSome && f.node.isSome && f.name.isSome && f.id.isNone then
    .ok (.instanceObjectsByProjectAndTypeAndNodeAndName,
      [.str (f.project.getD ""), .int (f.typ.getD 0), .str (f.node.getD ""), .str (f.name.getD "")])
  else if f.project.isSome && f.typ.isSome && f.node.isSome && f.id.isNone && f.name.isNone then
    .ok (.instanceObjectsByProjectAndTypeAndNode,
      [.str (f.project.getD ""), .int (f.typ.getD 0), .str (f.node.getD "")])
  else if f.project.isSome && f.typ.isSome && f.name.isSome && f.id.isNone && f.node.isNone then
    .ok (.instanceObjectsByProjectAndTypeAndName,
      [.str (f.project.getD ""), .int (f.typ.getD 0), .str (f.name.getD "")])
  else if f.typ.isSome && f.name.isSome && f.node.isSome && f.id.isNone && f.project.isNone then
    .ok (.instanceObjectsByTypeAndNameAndNode,
      [.int (f.typ.getD 0), .str (f.name.getD ""), .str (f.node.getD "")])
  else if f.project.isSome && f.name.isSome && f.node.isSome && f.id.isNone && f.typ.isNone then
    .ok (.instanceObjectsByProjectAndNameAndNode,
      [.str (f.project.getD ""), .str (f.name.getD ""), .str (f.node.getD "")])
  else if f.project.isSome && f.typ.isSome && f.id.isNone && f.name.isNone && f.node.isNone then
    .ok (.instanceObjectsByProjectAndType,
      [.str (f.project.getD ""), .int (f.typ.getD 0)])
  else if f.typ.isSome && f.node.isSome && f.id.isNone && f.project.isNone && f.name.isNone then
    .ok (.instanceObjectsByTypeAndNode,
      [.int (f.typ.getD 0), .str (f.node.getD "")])
  else if f.typ.isSome && f.name.isSome && f.id.isNone && f.project.isNone && f.node.isNone then
    .ok (.instanceObjectsByTypeAndName,
      [.int (f.typ.getD 0), .str (f.name.getD "")])
  else if f.project.isSome && f.node.isSome && f.id.isNone && f.name.isNone && f.typ.isNone then
    .ok (.instanceObjectsByProjectAndNode,
      [.str (f.project.getD ""), .str (f.node.getD "")])
  else if f.project.isSome && f.name.isSome && f.id.isNone && f.node.isNone && f.typ.isNone then
    .ok (.instanceObjectsByProjectAndName,
      [.str (f.project.getD ""), .str (f.name.getD "")])
  else if f.node.isSome && f.name.isSome && f.id.isNone && f.project.isNone && f.typ.isNone then
    .ok (.instanceObjectsByNodeAndName,
      [.str (f.node.getD ""), .str (f.name.getD "")])
  else if f.typ.isSome && f.id.isNone && f.project.isNone && f.name.isNone && f.node.isNone then
    .ok (.instanceObjectsByType, [.int (f.typ.getD 0)])
  else if f.project.isSome && f.id.isNone && f.name.isNone && f.node.isNone && f.typ.isNone then
    .ok (.instanceObjectsByProject, [.str (f.project.getD "")])
  else if f.node.isSome && f.id.isNone && f.project.isNone && f.name.isNone && f.typ.isNone then
    .ok (.instanceObjectsByNode, [.str (f.node.getD "")])
  else if f.name.isSome && f.id.isNone && f.project.isNone && f.node.isNone && f.typ.isNone then
    .ok (.instanceObjectsByName, [.str (f.name.getD "")])
  else if f.id.isSome && f.project.isNone && f.name.isNone && f.node.isNone && f.typ.isNone then
    .ok (.instanceObjectsByID, [.int (f.id.getD 0)])
  else if f.id.isNone && f.project.isNone && f.name.isNone && f.node.isNone && f.typ.isNone then
    .ok (.instanceObjects, [])
  else
    .error "No statement exists for the given Filter"

/-- The five optional fields of an `InstanceFilter`. -/
inductive InstanceField where
  | id
  | project
  | name
  | node
  | typ
deriving DecidableEq, Repr

/-- Whether a filter field is present (non-nil) in the filter. -/
def InstanceFilter.present (f : InstanceFilter) : InstanceField → Bool
  | .id => f.id.isSome
  | .project => f.project.isSome
  | .name => f.name.isSome
  | .node => f.node.isSome
  | .typ => f.typ.isSome

/-- The bind value of a present filter field. -/
def InstanceFilter.bind (f : InstanceFilter) : InstanceField → SqlArg
  | .id => .int (f.id.getD 0)
  | .project => .str (f.project.getD "")
  | .name => .str (f.name.getD "")
  | .node => .str (f.node.getD "")
  | .typ => .int (f.typ.getD 0)

/-- A catalogue entry: a registered statement together with its
required filter fields, in the declared bind order of its SQL WHERE
clause. -/
structure InstanceCatEntry where
  stmt : InstanceStmt
  fields : List InstanceField
deriving DecidableEq, Repr

/-- The instance statement catalogue as registered in
instances.mapper.go: each statement with the filter-field combination
its WHERE clause requires, in declared bind order. -/
def instanceCatalogue : List InstanceCatEntry :=
  [⟨.instanceObjects, []⟩,
   ⟨.instanceObjectsByID, [.id]⟩,
   ⟨.instanceObjectsByProject, [.project]⟩,
   ⟨.instanceObjectsByProjectAndType, [.project, .typ]⟩,
   ⟨.instanceObjectsByProjectAndTypeAndNode, [.project, .typ, .node]⟩,
   ⟨.instanceObjectsByProjectAndTypeAndNodeAndName, [.project, .typ, .node, .name]⟩,
   ⟨.instanceObjectsByProjectAndTypeAndName, [.project, .typ, .name]⟩,
   ⟨.instanceObjectsByProjectAndName, [.project, .name]⟩,
   ⟨.instanceObjectsByProjectAndNameAndNode, [.project, .name, .node]⟩,
   ⟨.instanceObjectsByProjectAndNode, [.project, .node]⟩,
   ⟨.instanceObjectsByType, [.typ]⟩,
   ⟨.instanceObjectsByTypeAndName, [.typ, .name]⟩,
   ⟨.instanceObjectsByTypeAndNameAndNode, [.typ, .name, .node]⟩,
   ⟨.instanceObjectsByTypeAndNode, [.typ, .node]⟩,
   ⟨.instanceObjectsByNode, [.node]⟩,
   ⟨.instanceObjectsByNodeAndName, [.node, .name]⟩,
   ⟨.instanceObjectsByName, [.name]⟩]

/-- All instance filter fields, for presence comparisons. -/
def instanceAllFields : List InstanceField :=
  [.id, .project, .name, .node, .typ]

/-- An entry matches a filter when its required-field combination
equals (as a set) the set of present filter fields: not a superset,
not a subset. -/
def instanceEntryMatches (e : InstanceCatEntry) (f : InstanceFilter) : Bool :=
  instanceAllFields.all fun fld => e.fields.contains fld == f.present fld

/-- The dispatcher contract as the spec words it: select the one
catalogue entry whose required-field combination exactly matches the
present filter fields, bind the present fields in that entry's
declared order, and fail when no entry matches. -/
def instanceDispatchSpec (f : InstanceFilter) :
    Except String (InstanceStmt × List SqlArg) :=
  match instanceCatalogue.find? (fun e => instanceEntryMatches e f) with
  | some e => .ok (e.stmt, e.fields.map f.bind)
  | none => .error "No statement exists for the given Filter"

/-- The presence mask of a catalogue entry, used to state that no two
entries claim the same field combination. -/
def instanceEntryMask (e : InstanceCatEntry) : List Bool :=
  instanceAllFields.map fun fld => e.fields.contains fld

/-! ## Entity filter dispatcher: certificates (`GetCertificates`) -/

/-- `CertificateFilter` from the generated certificate mapper. -/
structure CertificateFilter where
  id : Option Int
  fingerprint : Option String
  name : Option String
  typ : Option Int
deriving DecidableEq, Repr

/-- The registered certificate object statements. -/
inductive CertificateStmt where
  | certificateObjects
  | certificateObjectsByID
  | certificateObjectsByFingerprint
deriving DecidableEq, Repr

/-- The statement-selection part of `GetCertificates`: the literal
if/else chain from the generated mapper. -/
def getCertificatesStmtArgs (f : CertificateFilter) :
    Except String (CertificateStmt × List SqlArg) :=
  if f.id.isSome && f.fingerprint.isNone && f.name.isNone && f.typ.isNone then
    .ok (.certificateObjectsByID, [.int (f.id.getD 0)])
  else if f.fingerprint.isSome && f.id.isNone && f.name.isNone && f.typ.isNone then
    .ok (.certificateObjectsByFingerprint, [.str (f.fingerprint.getD "")])
  else if f.id.isNone && f.fingerprint.isNone && f.name.isNone && f.typ.isNone then
    .ok (.certificateObjects, [])
  else
    .error "No statement exists for the given Filter"

/-- The four optional fields of a `CertificateFilter`. -/
inductive CertificateField where
  | id
  | fingerprint
  | name
  | typ
deriving DecidableEq, Repr

/-- Whether a certificate filter field is present. -/
def CertificateFilter.present (f : CertificateFilter) : CertificateField → Bool
  | .id => f.id.isSome
  | .fingerprint => f.fingerprint.isSome
  | .name => f.name.isSome
  | .typ => f.typ.isSome

/-- The bind value of a present certificate filter field. -/
def CertificateFilter.bind (f : CertificateFilter) : CertificateField → SqlArg
  | .id => .int (f.id.getD 0)
  | .fingerprint => .str (f.fingerprint.getD "")
  | .name => .str (f.name.getD "")
  | .typ => .int (f.typ.getD 0)

/-- A certificate catalogue entry. -/
structure CertificateCatEntry where
  stmt : CertificateStmt
  fields : List CertificateField
deriving DecidableEq, Repr

/-- The certificate statement catalogue: only the unfiltered, by-ID and
by-fingerprint combinations are registered. -/
def certificateCatalogue : List CertificateCatEntry :=
  [⟨.certificateObjects, []⟩,
   ⟨.certificateObjectsByID, [.id]⟩,
   ⟨.certificateObjectsByFingerprint, [.fingerprint]⟩]

/-- All certificate filter fields. -/
def certificateAllFields : List CertificateField :=
  [.id, .fingerprint, .name, .typ]

/-- Exact match between a certificate catalogue entry and the present
fields of a filter. -/
def certificateEntryMatches (e : CertificateCatEntry) (f : CertificateFilter) : Bool :=
  certificateAllFields.all fun fld => e.fields.contains fld == f.present fld

/-- The spec-side dispatcher for certificates. -/
def certificateDispatchSpec (f : CertificateFilter) :
    Except String (CertificateStmt × List SqlArg) :=
  match certificateCatalogue.find? (fun e => certificateEntryMatches e f) with
  | some e => .ok (e.stmt, e.fields.map f.bind)
  | none => .error "No statement exists for the given Filter"

/-- Presence mask of a certificate catalogue entry. -/
def certificateEntryMask (e : CertificateCatEntry) : List Bool :=
  certificateAllFields.map fun fld => e.fields.contains fld

/-- The all-absent instance filter. -/
def emptyInstanceFilter : InstanceFilter :=
  ⟨none, none, none, none, none⟩

/-- The all-absent certificate filter. -/
def emptyCertificateFilter : CertificateFilter :=
  ⟨none, none, none, none⟩

/-! ## Relational entity store: instances and certificates

The SQL engine is modelled by explicit tables (lists of rows); each
mapper operation is a function from the database state to a new state
together with an `Except` result.  An operation that fails before
performing any write returns the input state unchanged. -/

/-- Database errors, separating the typed conditions from generic
internal errors: `noSuchObject` is the instance mapper's
`ErrNoSuchObject` sentinel, `statusErr` is an `api.StatusError` with
its HTTP status code, and `generic` is a plain `fmt.Errorf`. -/
inductive DbErr where
  | noSuchObject
  | statusErr (code : Nat) (msg : String)
  | generic (msg : String)
deriving DecidableEq, Repr

/-- The message carried by a database error, for error wrapping. -/
def DbErr.msg : DbErr → String
  | .noSuchObject => "No such object"
  | .statusErr _ m => m
  | .generic m => m

/-- Whether an error is a typed Not-Found condition (the
`ErrNoSuchObject` sentinel or an `api.StatusError` with code 404). -/
def DbErr.isNotFound : DbErr → Bool
  | .noSuchObject => true
  | .statusErr code _ => code == 404
  | .generic _ => false

/-- A row of the `instances` table.  Project and node are stored by
name (the SQL joins resolve them to IDs; the natural key the mapper
operates on is project+name). -/
structure InstanceRow where
  id : Int
  project : String
  name : String
  node : String
  typ : Int
  architecture : Int
  ephemeral : Bool
  creationDate : Int
  stateful : Bool
  lastUseDate : Int
  description : String
  expiryDate : Int
deriving DecidableEq, Repr

/-- A config child row (`instances_config`): parent reference plus one
key/value pair. -/
structure ConfigRow where
  referenceID : Int
  key : String
  value : String
deriving DecidableEq, Repr

/-- A device child row (`instances_devices`). -/
structure DeviceRow where
  referenceID : Int
  name : String
  typ : Int
deriving DecidableEq, Repr

/-- The instance-side database state: the `instances` table, its
config/device child tables, the instance-profile association table and
the next surrogate ID the engine will assign. -/
structure InstancesDB where
  instances : List InstanceRow
  configs : List ConfigRow
  devices : List DeviceRow
  instanceProfiles : List (Int × Int)
  nextID : Int
deriving DecidableEq, Repr

/-- The caller-supplied `Instance` object passed to `CreateInstance`:
natural key fields, scalar columns, config mapping, devices and
profile references. -/
structure InstanceObject where
  project : String
  name : String
  node : String
  typ : Int
  architecture : Int
  ephemeral : Bool
  creationDate : Int
  stateful : Bool
  lastUseDate : Int
  description : String
  expiryDate : Int
  config : List (String × String)
  devices : List (String × Int)
  profiles : List Int
deriving DecidableEq, Repr

/-- `GetInstanceID`: run the `instanceID` statement (select id where
project and name match) and insist on exactly one row. -/
def getInstanceID (db : InstancesDB) (project name : String) : Except DbErr Int :=
  match (db.instances.filter fun r => r.project == project && r.name == name).map (·.id) with
  | [] => .error .noSuchObject
  | [id] => .ok id
  | _ => .error (.generic "More than one row returned")

/-- `InstanceExists`: ID lookup with `ErrNoSuchObject` translated to
`false`; all other errors propagate. -/
def instanceExists (db : InstancesDB) (project name : String) : Except DbErr Bool :=
  match getInstanceID db project name with
  | .error .noSuchObject => .ok false
  | .error e => .error e
  | .ok _ => .ok true

/-- Modelled from the spec: `UpdateInstanceProfiles` (not among the
sources) refreshes the instance-profile association table to reflect
the object's profile list — full replace of the rows belonging to the
instance. -/
def updateInstanceProfiles (db : InstancesDB) (id : Int) (profiles : List Int) : InstancesDB :=
  { db with instanceProfiles :=
      (db.instanceProfiles.filter fun r => r.1 != id) ++ profiles.map fun p => (id, p) }

/-- `CreateInstance`: existence pre-check, then insert the parent row,
each config pair, each device and the profile associations.  Returns
the (possibly unchanged) database state together with the result. -/
def createInstance (db : InstancesDB) (o : InstanceObject) :
    InstancesDB × Except DbErr Int :=
  match instanceExists db o.project o.name with
  | .error e => (db, .error (.generic ("Failed to check for duplicates: " ++ e.msg)))
  | .ok true => (db, .error (.generic "This \"instances\" entry already exists"))
  | .ok false =>
    let id := db.nextID
    let row : InstanceRow :=
      ⟨id, o.project, o.name, o.node, o.typ, o.architecture, o.ephemeral,
        o.creationDate, o.stateful, o.lastUseDate, o.description, o.expiryDate⟩
    let db1 := { db with instances := db.instances ++ [row], nextID := id + 1 }
    let db2 := { db1 with configs :=
      db1.configs ++ o.config.map fun kv : String × String => ConfigRow.mk id kv.1 kv.2 }
    let db3 := { db2 with devices :=
      db2.devices ++ o.devices.map fun d : String × Int => DeviceRow.mk id d.1 d.2 }
    (updateInstanceProfiles db3 id o.profiles, .ok id)

/-- `DeleteInstance`: execute the delete-by-project-and-name statement,
then require exactly one affected row; any other count is surfaced as
a generic error. -/
def deleteInstance (db : InstancesDB) (project name : String) :
    InstancesDB × Except DbErr Unit :=
  let matched := db.instances.filter fun r => r.project == project && r.name == name
  let db' := { db with instances := db.instances.filter fun r =>
    !(r.project == project && r.name == name) }
  if matched.length != 1 then
    (db', .error (.generic s!"Query deleted {matched.length} rows instead of 1"))
  else
    (db', .ok ())

/-- A row of the `certificates` table. -/
structure CertificateRow where
  id : Int
  fingerprint : String
  typ : Int
  name : String
  certificate : String
  restricted : Bool
deriving DecidableEq, Repr

/-- The certificate-side database state. -/
structure CertificatesDB where
  certificates : List CertificateRow
  nextID : Int
deriving DecidableEq, Repr

/-- The caller-supplied `Certificate` object. -/
structure CertificateObject where
  fingerprint : String
  typ : Int
  name : String
  certificate : String
  restricted : Bool
deriving DecidableEq, Repr

/-- `GetCertificateID`: select the ID by fingerprint, requiring exactly
one row; zero rows is the typed 404 condition. -/
def getCertificateID (db : CertificatesDB) (fingerprint : String) : Except DbErr Int :=
  match (db.certificates.filter fun r => r.fingerprint == fingerprint).map (·.id) with
  | [] => .error (.statusErr 404 "Certificate not found")
  | [id] => .ok id
  | _ => .error (.generic "More than one row returned")

/-- `CertificateExists`: ID lookup with the 404 condition translated to
`false` (`api.StatusErrorCheck err 404`); other errors propagate. -/
def certificateExists (db : CertificatesDB) (fingerprint : String) : Except DbErr Bool :=
  match getCertificateID db fingerprint with
  | .error (.statusErr 404 _) => .ok false
  | .error e => .error e
  | .ok _ => .ok true

/-- `CreateCertificate`: existence pre-check (typed 409 Conflict if
present), then insert the row. -/
def createCertificate (db : CertificatesDB) (o : CertificateObject) :
    CertificatesDB × Except DbErr Int :=
  match certificateExists db o.fingerprint with
  | .error e => (db, .error (.generic ("Failed to check for duplicates: " ++ e.msg)))
  | .ok true => (db, .error (.statusErr 409 "This \"certificates\" entry already exists"))
  | .ok false =>
    let id := db.nextID
    let row : CertificateRow := ⟨id, o.fingerprint, o.typ, o.name, o.certificate, o.restricted⟩
    ({ db with certificates := db.certificates ++ [row], nextID := id + 1 }, .ok id)

/-- `DeleteCertificate`: execute the delete-by-fingerprint statement;
zero affected rows is the typed 404 Not-Found, more than one is a
generic internal error. -/
def deleteCertificate (db : CertificatesDB) (fingerprint : String) :
    CertificatesDB × Except DbErr Unit :=
  let matched := db.certificates.filter fun r => r.fingerprint == fingerprint
  let db' := { db with certificates := db.certificates.filter fun r =>
    !(r.fingerprint == fingerprint) }
  if matched.length == 0 then
    (db', .error (.statusErr 404 "Certificate not found"))
  else if matched.length > 1 then
    (db', .error (.generic s!"Query deleted {matched.length} Certificate rows instead of 1"))
  else
    (db', .ok ())

/-! ## Warning/state reconciliation (`UpsertWarning`, warnings.go) -/

/-- `warningtype.Status` values. -/
inductive WarningStatus where
  | statusNew
  | statusAcknowledged
  | statusResolved
deriving DecidableEq, Repr

/-- A row of the `warnings` table. -/
structure WarningRow where
  uuid : String
  node : String
  project : String
  entityType : String
  entityID : Int
  typeCode : Nat
  status : WarningStatus
  firstSeenDate : Int
  lastSeenDate : Int
  updatedDate : Int
  lastMessage : String
  count : Int
deriving DecidableEq, Repr

/-- The environment of collaborators `UpsertWarning` consults:
`knownTypes` models the `warningtype.TypeNames` registry, `entityOk`
models `cluster.GetEntityURL` resolving (none of which are among the
sources), `nodeExists`/`projectNames` model the node and project
lookups of `createWarning`, and `freshUUID` is the value `uuid.New()`
produces for this call. -/
structure WarningEnv where
  knownTypes : List Nat
  entityOk : String → Int → Bool
  nodeExists : String → Bool
  projectNames : List String
  freshUUID : String

/-- Modelled from the spec: `cluster.GetWarnings` (generated dispatcher,
not among the sources) with a fully-specified filter returns exactly
the records matching the (typeCode, node, project, entityType,
entityID) tuple. -/
def getWarningsByFilter (table : List WarningRow) (typeCode : Nat)
    (node project entityType : String) (entityID : Int) : List WarningRow :=
  table.filter fun w =>
    w.typeCode == typeCode && w.node == node && w.project == project &&
      w.entityType == entityType && w.entityID == entityID

/-- `UpdateWarningState`: one UPDATE replacing the last message,
bumping last-seen/updated dates, setting the status and incrementing
the count of every row with the given UUID; zero affected rows is the
typed 404. -/
def updateWarningState (table : List WarningRow) (uuid message : String)
    (status : WarningStatus) (now : Int) : List WarningRow × Except DbErr Unit :=
  let n := (table.filter fun w => w.uuid == uuid).length
  let table' := table.map fun w =>
    if w.uuid == uuid then
      { w with lastMessage := message, lastSeenDate := now, updatedDate := now,
               status := status, count := w.count + 1 }
    else w
  if n == 0 then
    (table, .error (.statusErr 404 "Warning not found"))
  else
    (table', .ok ())

/-- `createWarning`: duplicate-UUID pre-check, node and project
existence validation (each only when the field is non-empty), then
insert. -/
def createWarning (env : WarningEnv) (table : List WarningRow) (object : WarningRow) :
    List WarningRow × Except DbErr Unit :=
  if table.any fun w => w.uuid == object.uuid then
    (table, .error (.generic "This warning already exists"))
  else if object.node != "" && !(env.nodeExists object.node) then
    (table, .error (.generic "Failed to get node"))
  else if object.project != "" && !(env.projectNames.contains object.project) then
    (table, .error (.generic s!"Unknown project \x22{object.project}\x22"))
  else
    (table ++ [object], .ok ())

/-- `UpsertWarning`: validate the type code and the referenced entity,
look up the existing records for the exact tuple, then update the one
match (reactivating a Resolved warning), insert on zero matches, and
fail on more than one match. -/
def upsertWarning (env : WarningEnv) (table : List WarningRow)
    (nodeName projectName entityType : String) (entityID : Int)
    (typeCode : Nat) (message : String) (now : Int) :
    List WarningRow × Except DbErr Unit :=
  if !(env.knownTypes.contains typeCode) then
    (table, .error (.generic s!"Unknown warning type code {typeCode}"))
  else if entityType != "" && !(env.entityOk entityType entityID) then
    (table, .error (.generic "Failed to validate warning"))
  else
    let warnings := getWarningsByFilter table typeCode nodeName projectName entityType entityID
    match warnings with
    | _ :: _ :: _ =>
      (table, .error (.generic
        s!"More than one warnings ({warnings.length}) match the criteria: typeCode: {typeCode}, nodeName: \x22{nodeName}\x22, projectName: \x22{projectName}\x22, entityType: \x22{entityType}\x22, entityID: {entityID}"))
    | [w] =>
      let newStatus := if w.status == .statusResolved then .statusNew else w.status
      updateWarningState table w.uuid message newStatus now
    | [] =>
      let warning : WarningRow :=
        { uuid := env.freshUUID
          node := nodeName
          project := projectName
          entityType := entityType
          entityID := entityID
          typeCode := typeCode
          status := .statusNew
          firstSeenDate := now
          lastSeenDate := now
          updatedDate := 0
          lastMessage := message
          count := 1 }
      createWarning env table warning

/-! ## Device attachment engine (device_utils_unix.go)

The host filesystem is modelled by a `Host` oracle structure: `stat`
results per path, plus success oracles for the mutating syscalls.  A
devices directory listing is passed in as a `ReadDirRes`. -/

/-- Go's `%q` verb on the strings that appear here: surround with
double quotes. -/
def goQuote (s : String) : String := "\x22" ++ s ++ "\x22"

/-- The suffix of a name after its last `.` — `devName[idx+1:]` for
`idx := strings.LastIndex(devName, ".")` — or `none` when the name
contains no `.` (`idx == -1`). -/
def afterLastDot? (s : String) : Option String :=
  let r := s.toList.reverse
  if r.contains '.' then some (String.mk (r.takeWhile fun c => c != '.').reverse)
  else none

/-- Modelled from the spec: `filesystem.PathNameEncode` (not among the
sources) — the reversible escaping of the path separator used inside
encoded device file names (`/` becomes `-`), so that the in-instance
destination path can be embedded after the last `.` of the name. -/
def pathNameEncode (s : String) : String :=
  String.mk (s.data.map fun c => if c == '/' then '-' else c)

/-- Modelled from the spec: `filesystem.PathNameDecode`, the inverse of
`pathNameEncode`. -/
def pathNameDecode (s : String) : String :=
  String.mk (s.data.map fun c => if c == '-' then '/' else c)

/-- Modelled from the spec: `deviceJoinPath` (not among the sources)
joins the name segments of an encoded device file name with the
reserved `.` separator (`<prefix>.<encoded-destination>`). -/
def deviceJoinPath (parts : List String) : String := String.intercalate "." parts

/-- Modelled from the spec: `shared.IsTrue` — a config value counts as
true when it is one of "true", "1", "yes", "on" (case-insensitive). -/
def isTrue (value : String) : Bool :=
  ["true", "1", "yes", "on"].contains (strToLower value)

/-- `strings.TrimPrefix(s, "/")`: drop one leading slash if present. -/
def trimLeadingSlash (s : String) : String :=
  if goHasPfx s "/" then s.drop 1 else s

/-- `filepath.Join` for the non-empty, already-clean path components
used by the device engine. -/
def filepathJoin (dir name : String) : String := dir ++ "/" ++ name

/-- A device config map (`deviceConfig.Device`): string keys to string
values, with the Go semantics that a missing key reads as "". -/
def DevConfig := List (String × String)

/-- Map lookup with Go's zero-value semantics. -/
def confGet (m : DevConfig) (k : String) : String :=
  (((m.find? fun kv => kv.1 == k).map fun kv => kv.2)).getD ""

/-- The file type relevant to `unixDeviceAttributes`: block device,
character device, or anything else. -/
inductive FType where
  | block
  | char
  | other
deriving DecidableEq, Repr

/-- The stat information the device engine reads from a path. -/
structure UnixStat where
  ftype : FType
  rdevMajor : Nat
  rdevMinor : Nat
  mode : Nat
  uid : Nat
  gid : Nat
deriving DecidableEq, Repr

/-- Result of `stat` on the host: found, failed with ENOENT, or failed
with some other errno. -/
inductive StatRes where
  | found (st : UnixStat)
  | enoent
  | failed
deriving DecidableEq, Repr

/-- The host-side oracles of the device engine: stat results per path,
execution context flags, and success oracles for the mutating
filesystem operations (mkdir/mknod/chown/chmod/create/mount). -/
structure Host where
  stat : String → StatRes
  pathExists : String → Bool
  mkdirOk : String → Bool
  runningInUserNS : Bool
  nodev : Bool
  mknodOk : String → Bool
  chownOk : String → Bool
  chmodOk : String → Bool
  createOk : String → Bool
  mountOk : String → Bool

/-- `strconv.ParseUint(s, 10, 32)`: a non-empty unsigned decimal digit
run whose value fits in 32 bits. -/
def parseUint32? (s : String) : Option Nat :=
  if allDigits s.toList then
    let n := decVal s.toList
    if n < 2 ^ 32 then some n else none
  else none

/-- `strconv.ParseInt(s, 8, 32)` for the non-negative octal file modes
accepted by `unixDeviceModeOct`. -/
def parseOct32? (s : String) : Option Nat :=
  if s.length == 0 || !(s.toList.all fun c => '0' ≤ c && c ≤ '7') then none
  else
    let n := s.toList.foldl (fun acc c => acc * 8 + (c.toNat - '0'.toNat)) 0
    if n < 2 ^ 31 then some n else none

/-- `strconv.Atoi`: an optionally signed decimal integer. -/
def atoi? (s : String) : Option Int :=
  match s.toList with
  | '-' :: rest => if allDigits rest then some (-(decVal rest : Int)) else none
  | '+' :: rest => if allDigits rest then some (decVal rest) else none
  | l => if allDigits l then some (decVal l) else none

/-- Default mode for unix devices when not specified (`unixDefaultMode`). -/
def unixDefaultMode : Nat := 0o660

/-- `unix.S_IFBLK`. -/
def sIFBLK : Nat := 0o60000

/-- `unix.S_IFCHR`. -/
def sIFCHR : Nat := 0o20000

/-- `unixDeviceAttributes`: stat a path and classify it as a block or
char device, returning the type tag and major/minor numbers. -/
def unixDeviceAttributes (host : Host) (path : String) :
    Except String (String × Nat × Nat) :=
  match host.stat path with
  | .enoent => .error "no such file or directory"
  | .failed => .error "stat failed"
  | .found st =>
    match st.ftype with
    | .block => .ok ("b", st.rdevMajor, st.rdevMinor)
    | .char => .ok ("c", st.rdevMajor, st.rdevMinor)
    | .other => .error "Not a device"

/-- `unixDeviceOwnership`: stat a path for its (gid, uid). -/
def unixDeviceOwnership (host : Host) (path : String) :
    Except String (Nat × Nat) :=
  match host.stat path with
  | .enoent => .error "no such file or directory"
  | .failed => .error "stat failed"
  | .found st => .ok (st.gid, st.uid)

/-- `shared.GetPathMode` as the device engine uses it: the mode bits of
the stat-ed path, with the ENOENT failure distinguished so the caller
can fall back to the default mode. -/
def getPathMode (host : Host) (path : String) : Except Bool Nat :=
  match host.stat path with
  | .found st => .ok st.mode
  | .enoent => .error true
  | .failed => .error false

/-- `UnixDevice`: information about a created UNIX device. -/
structure UnixDevice where
  hostPath : String
  relativePath : String
  typ : String
  major : Nat
  minor : Nat
  mode : Nat
  uid : Int
  gid : Int
deriving DecidableEq, Repr

/-- `unixDeviceSourcePath`: the "source" config property, or "path"
when "source" is not set (`shared.HostPath` is the identity outside a
snap environment). -/
def unixDeviceSourcePath (m : DevConfig) : String :=
  if confGet m "source" != "" then confGet m "source" else confGet m "path"

/-- `unixDeviceDestPath`: the "path" config property, or "source" when
"path" is not set. -/
def unixDeviceDestPath (m : DevConfig) : String :=
  if confGet m "path" != "" then confGet m "path" else confGet m "source"

/-- The config properties that may not be set on nested containers. -/
def deviceProperties : List String := ["major", "minor", "mode", "uid", "gid"]

/-- The major/minor resolution block of `UnixDeviceCreate`: stat the
source when neither is set, reject exactly one of the two being set,
otherwise parse both. -/
def resolveMajorMinor (host : Host) (m : DevConfig) (srcPath : String) :
    Except String (Nat × Nat) :=
  if confGet m "major" == "" && confGet m "minor" == "" then
    match unixDeviceAttributes host srcPath with
    | .error e => .error s!"Failed to get device attributes for {goQuote srcPath}: {e}"
    | .ok (_, maj, mi) => .ok (maj, mi)
  else if confGet m "major" == "" || confGet m "minor" == "" then
    .error s!"Both major and minor must be supplied for device: {srcPath}"
  else
    match parseUint32? (confGet m "major"), parseUint32? (confGet m "minor") with
    | none, _ =>
      let v := confGet m "major"
      .error s!"Bad major {goQuote v} in device {goQuote srcPath}"
    | some _, none =>
      let v := confGet m "minor"
      .error s!"Bad minor {goQuote v} in device {goQuote srcPath}"
    | some maj, some mi => .ok (maj, mi)

/-- The mode resolution block of `UnixDeviceCreate`: the explicit octal
config value, else (unless `defaultMode` forces the default) the
stat-ed source mode with an ENOENT fallback to the default, else the
default 0660. -/
def resolveMode (host : Host) (m : DevConfig) (srcPath : String) (defaultMode : Bool) :
    Except String Nat :=
  if confGet m "mode" != "" then
    match parseOct32? (confGet m "mode") with
    | none =>
      let v := confGet m "mode"
      .error s!"Bad mode {goQuote v} in device {goQuote srcPath}"
    | some v => .ok v
  else if !defaultMode then
    match getPathMode host srcPath with
    | .ok v => .ok v
    | .error isEnoent =>
      if isEnoent then .ok unixDefaultMode
      else .error s!"Failed to retrieve mode of device {goQuote srcPath}: stat failed"
  else
    .ok unixDefaultMode

/-- The ownership resolution block of `UnixDeviceCreate` (returns
(uid, gid)): under `ownership.inherit` each of uid/gid is stat-ed from
the source only when its config value is empty (a non-empty value
leaves the Go zero value 0 in place); otherwise explicit values are
parsed and absent ones default to 0. -/
def resolveOwner (host : Host) (m : DevConfig) (srcPath : String) :
    Except String (Int × Int) := do
  if isTrue (confGet m "ownership.inherit") then
    let uid ←
      if confGet m "uid" == "" then
        match unixDeviceOwnership host srcPath with
        | .error e => throw s!"Failed to retrieve host UID of device {goQuote srcPath}: {e}"
        | .ok (_, uid) => pure (Int.ofNat uid)
      else
        pure 0
    let gid ←
      if confGet m "gid" == "" then
        match unixDeviceOwnership host srcPath with
        | .error e => throw s!"Failed to retrieve host GID of device {goQuote srcPath}: {e}"
        | .ok (gid, _) => pure (Int.ofNat gid)
      else
        pure 0
    pure (uid, gid)
  else
    let uid ←
      if confGet m "uid" != "" then
        match atoi? (confGet m "uid") with
        | none =>
          let v := confGet m "uid"
          throw s!"Invalid UID {goQuote v} in device {goQuote srcPath}"
        | some v => pure v
      else pure 0
    let gid ←
      if confGet m "gid" != "" then
        match atoi? (confGet m "gid") with
        | none =>
          let v := confGet m "gid"
          throw s!"Invalid GID {goQuote v} in device {goQuote srcPath}"
        | some v => pure v
      else pure 0
    pure (uid, gid)

/-- The node materialization block of `UnixDeviceCreate`: mknod, chown
and chmod in a privileged context (after rejecting nodev devices
paths), or create-and-bind-mount in a user namespace. -/
def materializeNode (host : Host) (devPath srcPath : String) : Except String Unit := do
  if !host.runningInUserNS then
    if host.nodev then
      throw "Can't create device as devices path is mounted nodev"
    if !host.mknodOk devPath then
      throw s!"Failed to create device {goQuote devPath} for {goQuote srcPath}: mknod failed"
    if !host.chownOk devPath then
      throw s!"Failed to chown device {goQuote devPath}: chown failed"
    -- Needed as mknod respects the umask.
    if !host.chmodOk devPath then
      throw s!"Failed to chmod device {goQuote devPath}: chmod failed"
    -- A failing uidshift with a supplied idmap set is logged, not fatal.
  else
    if !host.createOk devPath then
      throw s!"Failed to create file {goQuote devPath}"
    if !host.mountOk devPath then
      throw s!"Failed to mount {goQuote srcPath} at {goQuote devPath}"

/-- The nesting check of `UnixDeviceCreate`: in a user namespace none
of the device attribute properties may be set. -/
def nestedCheck (host : Host) (m : DevConfig) : Except String Unit :=
  if host.runningInUserNS then
    match deviceProperties.find? fun k => confGet m k != "" with
    | some k =>
      .error s!"The {goQuote k} property may not be set when adding a device to a nested container"
    | none => .ok ()
  else .ok ()

/-- The devices-directory creation step of `UnixDeviceCreate`. -/
def ensureDevicesPath (host : Host) (devicesPath : String) : Except String Unit :=
  if !host.pathExists devicesPath then
    if !host.mkdirOk devicesPath then
      .error "Failed to create devices path: mkdir failed"
    else .ok ()
  else .ok ()

/-- `UnixDeviceCreate`: resolve major/minor (explicit or stat-ed), file
mode (explicit, inherited, or default), type bit and ownership, then
materialize the device node under the devices directory.  `idmapSet`
records whether an idmap set was supplied (its shift failure is
non-fatal and does not affect the result). -/
def unixDeviceCreate (host : Host) (_idmapSet : Bool) (devicesPath : String)
    (pfx : String) (m : DevConfig) (defaultMode : Bool) :
    Except String UnixDevice := do
  -- Extra checks for nesting.
  nestedCheck host m
  let srcPath := unixDeviceSourcePath m
  -- Get the major/minor of the device we want to create.
  let (dMajor, dMinor) ← resolveMajorMinor host m srcPath
  -- Get the device mode (defaults to unixDefaultMode if not supplied).
  let mode0 ← resolveMode host m srcPath defaultMode
  let (dMode, dType) :=
    if confGet m "type" == "unix-block" then (mode0 ||| sIFBLK, "b")
    else (mode0 ||| sIFCHR, "c")
  -- Get the device owner.
  let (dUID, dGID) ← resolveOwner host m srcPath
  -- Create the devices directory if missing.
  ensureDevicesPath host devicesPath
  let destPath := unixDeviceDestPath m
  let relativeDestPath := trimLeadingSlash destPath
  let devName := pathNameEncode (deviceJoinPath [pfx, relativeDestPath])
  let devPath := filepathJoin devicesPath devName
  -- Create the new entry.
  materializeNode host devPath srcPath
  pure
    { hostPath := devPath
      relativePath := relativeDestPath
      typ := dType
      major := dMajor
      minor := dMinor
      mode := dMode
      uid := dUID
      gid := dGID }

/-- A mount instruction in the run configuration
(`deviceConfig.MountEntryItem`); removal entries carry only the target
path, all other fields at their zero values. -/
structure MountEntryItem where
  devSource : Option String
  targetPath : String
  fsType : String
  opts : List String
  ownerShift : String
deriving DecidableEq, Repr

/-- `deviceConfig.MountOwnerShiftStatic`. -/
def mountOwnerShiftStatic : String := "static"

/-- A removal mount entry: target path only. -/
def blankMountEntry (target : String) : MountEntryItem :=
  { devSource := none, targetPath := target, fsType := "", opts := [], ownerShift := "" }

/-- The accumulating run configuration handed to the instance runtime:
ordered mount instructions and ordered cgroup rules. -/
structure RunConfig where
  mounts : List MountEntryItem
  cgroups : List (String × String)
deriving DecidableEq, Repr

/-- The result of reading the devices directory: a listing, or an
error which either is or is not a not-exist error. -/
inductive ReadDirRes where
  | ok (entries : List String)
  | err (notExist : Bool)
deriving DecidableEq, Repr

/-- The duplicate-destination scan of `unixDeviceSetup`: walk the
directory entries, split each name at its last `.`, and stop at the
first entry whose encoded destination equals ours; a name without a
`.` is an invalid device name. -/
def setupDupeScan (ourEncRelDestFile : String) : List String → Except String Bool
  | [] => .ok false
  | devName :: rest =>
    match afterLastDot? devName with
    | none => .error s!"Invalid device name {goQuote devName}"
    | some encRelDestFile =>
      if encRelDestFile == ourEncRelDestFile then .ok true
      else setupDupeScan ourEncRelDestFile rest

/-- `unixDeviceSetup`: scan the devices directory for an existing
device using the same mount path, create the device on the host, and
unless a duplicate was found append the bind-mount and cgroup-allow
instructions to the run configuration. -/
def unixDeviceSetup (host : Host) (readDirRes : ReadDirRes) (devicesPath : String)
    (typePfx deviceName : String) (m : DevConfig) (defaultMode : Bool)
    (runConf : RunConfig) : Except String RunConfig := do
  let ourDestPath := unixDeviceDestPath m
  let ourEncRelDestFile := pathNameEncode (trimLeadingSlash ourDestPath)
  -- Load all existing host devices; only a not-exist error is ignored.
  let dents ←
    match readDirRes with
    | .ok entries => pure entries
    | .err true => pure []
    | .err false => throw "readdir failed"
  let dupe ← setupDupeScan ourEncRelDestFile dents
  -- Create the device on the host.
  let ourPfx := deviceJoinPath [typePfx, deviceName]
  let d ← unixDeviceCreate host false devicesPath ourPfx m defaultMode
  -- If there was an existing device using the same mount path detected then skip mounting.
  if dupe then
    pure runConf
  else
    pure
      { runConf with
        mounts := runConf.mounts ++
          [{ devSource := some d.hostPath
             targetPath := d.relativePath
             fsType := "none"
             opts := ["bind", "create=file"]
             ownerShift := mountOwnerShiftStatic }]
        cgroups := runConf.cgroups ++
          [("devices.allow", s!"{d.typ} {d.major}:{d.minor} rwm")] }

/-- The encoded file-name prefix of the device family
`unixDeviceRemove` operates on, optionally narrowed by a sub-prefix. -/
def removeOurPfx (typePfx deviceName optPfx : String) : String :=
  if optPfx != "" then pathNameEncode (deviceJoinPath [typePfx, deviceName, optPfx])
  else pathNameEncode (deviceJoinPath [typePfx, deviceName])

/-- The encoded destination path embedded in a (well-formed) device
file name: the part after the last `.`. -/
def encodedDest (e : String) : String := (afterLastDot? e).getD ""

/-- The cgroup deny value `unixDeviceRemove` derives for a device file
by stat-ing it ("" when the stat fails — the theorems only use this
under the hypothesis that the stat succeeds). -/
def denyValue (host : Host) (devicesPath e : String) : String :=
  match unixDeviceAttributes host (filepathJoin devicesPath e) with
  | .ok (t, maj, mi) => s!"{t} {maj}:{mi} rwm"
  | .error _ => ""

/-- The per-entry loop of `unixDeviceRemove` over "our" device files:
skip entries whose encoded destination is still used by another
device, otherwise append the unmount instruction and the cgroup
deny-rule re-derived from the still-present host file. -/
def removeLoop (host : Host) (devicesPath : String) (encRelDevFiles : List String) :
    List String → RunConfig → Except String RunConfig
  | [], rc => .ok rc
  | ourDev :: rest, rc =>
    match afterLastDot? ourDev with
    | none => .error s!"Invalid device name {goQuote ourDev}"
    | some ourEncRelDestFile =>
      if encRelDevFiles.contains ourEncRelDestFile then
        removeLoop host devicesPath encRelDevFiles rest rc
      else
        let rc1 := { rc with mounts := rc.mounts ++ [blankMountEntry (pathNameDecode ourEncRelDestFile)] }
        let absDevPath := filepathJoin devicesPath ourDev
        match unixDeviceAttributes host absDevPath with
        | .error e => .error s!"Failed to get UNIX device attributes for {goQuote absDevPath}: {e}"
        | .ok (dType, dMajor, dMinor) =>
          removeLoop host devicesPath encRelDevFiles rest
            { rc1 with cgroups := rc1.cgroups ++ [("devices.deny", s!"{dType} {dMajor}:{dMinor} rwm")] }

/-- The loop of `unixDeviceRemove` over the other devices' files,
collecting each one's encoded destination path in order; an invalid
name is fatal. -/
def collectOtherEncs : List String → Except String (List String)
  | [] => .ok []
  | otherDev :: rest =>
    match afterLastDot? otherDev with
    | none => .error s!"Invalid device name {goQuote otherDev}"
    | some e =>
      match collectOtherEncs rest with
      | .error msg => .error msg
      | .ok es => .ok (e :: es)

/-- `unixDeviceRemove`: partition the directory entries into our device
family and the others, decode the others' destination paths, and for
each of our entries not sharing a destination with another device
append an unmount instruction and a deny rule. -/
def unixDeviceRemove (host : Host) (readDirRes : ReadDirRes) (devicesPath : String)
    (typePfx deviceName optPfx : String) (runConf : RunConfig) :
    Except String RunConfig := do
  let dents ←
    match readDirRes with
    | .ok entries => pure entries
    | .err true => pure []
    | .err false => throw "readdir failed"
  let ourPfx := removeOurPfx typePfx deviceName optPfx
  let ourDevs := dents.filter fun devName => goHasPfx devName ourPfx
  let otherDevs := dents.filter fun devName => !(goHasPfx devName ourPfx)
  -- Extract the encoded destination path of every other device.
  let encRelDevFiles ← collectOtherEncs otherDevs
  removeLoop host devicesPath encRelDevFiles ourDevs runConf

/-! ## Static DHCP allocation reader/writer (dnsmasq package) -/

/-- Modelled from the spec: `project.Instance` (not among the sources)
builds the project-qualified instance name used in static allocation
file names: the instance name, prefixed with the project name for
non-default projects. -/
def projectInstanceName (projectName instanceName : String) : String :=
  if projectName == "default" then instanceName
  else projectName ++ "_" ++ instanceName

/-- `StaticAllocationFileName`: project-qualified instance name and
escaped device name joined by the `.` separator. -/
def staticAllocationFileName (projectName instanceName deviceName : String) : String :=
  String.intercalate "." [projectInstanceName projectName instanceName, pathNameEncode deviceName]

/-- `DHCPStaticAllocationPath` relative to the LXD variable directory. -/
def dhcpStaticAllocationPath (network deviceStaticFileName : String) : String :=
  "networks/" ++ network ++ "/dnsmasq.hosts/" ++ deviceStaticFileName

/-- `UpdateStaticEntry`: build the single dhcp-host line — lowercased
MAC, optional `,ipv4`, optional `,[ipv6]`, and the DNS name when the
network's dns.mode is unset or "managed" — and write it (with a
trailing newline); a line that stayed equal to the bare MAC is not
written.  Returns the written path and content, or `none` when nothing
is written.  `dnsName` models `project.DNS(projectName, instanceName)`
(not among the sources). -/
def updateStaticEntry (network projectName instanceName deviceName : String)
    (netConfig : DevConfig) (hwaddr ipv4Address ipv6Address dnsName : String) :
    Option (String × String) :=
  let hwaddr := strToLower hwaddr
  let line := hwaddr
  -- Generate the dhcp-host line
  let line := if ipv4Address != "" then line ++ "," ++ ipv4Address else line
  let line := if ipv6Address != "" then line ++ ",[" ++ ipv6Address ++ "]" else line
  let line :=
    if confGet netConfig "dns.mode" == "" || confGet netConfig "dns.mode" == "managed" then
      line ++ "," ++ dnsName
    else line
  if line == hwaddr then none
  else
    some (dhcpStaticAllocationPath network
      (staticAllocationFileName projectName instanceName deviceName), line ++ "\n")

/-- An IP address as the allocation reader needs it: whether
`To4() != nil`, and its canonical byte key (4 bytes for IPv4, 16 for
IPv6). -/
structure IPAddr where
  isV4 : Bool
  key : List Nat
deriving DecidableEq, Repr

/-- A `DHCPAllocation` record. -/
structure DHCPAlloc where
  ip : Option IPAddr
  staticFileName : String
  mac : Option String
deriving DecidableEq, Repr

/-- The collaborators of the allocation reader: the dnsmasq.hosts
directory listing, the per-file line contents, the dnsmasq.leases line
contents, and the `net.ParseIP`/`net.ParseMAC` parsers. -/
structure DnsmasqEnv where
  readDirHosts : ReadDirRes
  readFileLines : String → Except String (List String)
  readLeaseLines : Except String (List String)
  parseIP : String → Option IPAddr
  parseMAC : String → Option String

/-- An association map keyed by canonical IP bytes, with Go map
assignment semantics (replace on existing key, append otherwise). -/
def assocSet (m : List (List Nat × DHCPAlloc)) (k : List Nat) (v : DHCPAlloc) :
    List (List Nat × DHCPAlloc) :=
  if m.any fun p => p.1 == k then m.map fun p => if p.1 == k then (k, v) else p
  else m ++ [(k, v)]

/-- Map lookup. -/
def assocGet? (m : List (List Nat × DHCPAlloc)) (k : List Nat) : Option DHCPAlloc :=
  (m.find? fun p => p.1 == k).map fun p => p.2

/-- The number of `.` characters in a field (`strings.Count(field, ".")`). -/
def countDots (s : String) : Nat := (s.toList.filter fun c => c == '.').length

/-- The number of `:` characters in a field. -/
def countColons (s : String) : Nat := (s.toList.filter fun c => c == ':').length

/-- The per-field step of `DHCPStaticAllocation`: classify a field by
shape (three dots → IPv4, bracket-wrapped → IPv6, five colons → MAC),
failing on a shape match that does not parse and ignoring unrecognized
shapes. -/
def staticAllocField (env : DnsmasqEnv) (deviceStaticFileName : String)
    (st : Option String × DHCPAlloc × DHCPAlloc) (field : String) :
    Except String (Option String × DHCPAlloc × DHCPAlloc) :=
  let (mac, v4, v6) := st
  if countDots field == 3 then
    match env.parseIP field with
    | some ip =>
      if ip.isV4 then
        .ok (mac, { staticFileName := deviceStaticFileName, ip := some ip, mac := mac }, v6)
      else .error s!"Error parsing IP address {goQuote field}"
    | none => .error s!"Error parsing IP address {goQuote field}"
  else if goHasPfx field "[" && goHasSfx field "]" then
    match env.parseIP ((field.drop 1).dropRight 1) with
    | some ip =>
      .ok (mac, v4, { staticFileName := deviceStaticFileName, ip := some ip, mac := mac })
    | none => .error s!"Error parsing IP address {goQuote field}"
  else if countColons field == 5 then
    match env.parseMAC field with
    | some m => .ok (some m, v4, v6)
    | none => .error s!"Error parsing MAC address {goQuote field}"
  else
    .ok st

/-- `DHCPStaticAllocation`: read one static allocation file and fold
its comma-separated fields into the (MAC, IPv4, IPv6) allocations. -/
def dhcpStaticAllocation (env : DnsmasqEnv) (deviceStaticFileName : String) :
    Except String (Option String × DHCPAlloc × DHCPAlloc) := do
  let lines ← env.readFileLines deviceStaticFileName
  let fields := lines.flatMap fun line => line.splitOn ","
  fields.foldlM (staticAllocField env deviceStaticFileName)
    (none, ⟨none, "", none⟩, ⟨none, "", none⟩)

/-- `strings.Fields` for the space-separated dnsmasq lease lines. -/
def goFields (s : String) : List String :=
  (s.split fun c => c == ' ').filter fun f => f != ""

/-- The dynamic phase of `DHCPAllAllocations`: parse the lease file and
merge each five-field entry into the maps, never replacing an
allocation that came from a static file. -/
def dhcpDynamicPhase (env : DnsmasqEnv)
    (maps : List (List Nat × DHCPAlloc) × List (List Nat × DHCPAlloc)) :
    Except String (List (List Nat × DHCPAlloc) × List (List Nat × DHCPAlloc)) := do
  let lines ← env.readLeaseLines
  lines.foldlM (fun st line => do
    let (v4s, v6s) := st
    let fields := goFields line
    if fields.length == 5 then
      let f2 := fields.getD 2 ""
      match env.parseIP f2 with
      | none => throw s!"Error parsing IP address: {f2}"
      | some ip =>
        if !ip.isV4 then
          -- Don't replace IPs from static config as more reliable.
          if ((assocGet? v6s ip.key).map fun a => a.staticFileName != "").getD false then
            pure (v4s, v6s)
          else
            pure (v4s, assocSet v6s ip.key { ip := some ip, staticFileName := "", mac := none })
        else
          -- MAC only available in IPv4 leases.
          let f1 := fields.getD 1 ""
          match env.parseMAC f1 with
          | none => throw s!"Error parsing MAC address: {f1}"
          | some mac =>
            if ((assocGet? v4s ip.key).map fun a => a.staticFileName != "").getD false then
              pure (v4s, v6s)
            else
              pure (assocSet v4s ip.key { ip := some ip, staticFileName := "", mac := some mac }, v6s)
    else
      pure st) maps

/-- `DHCPAllAllocations`: read every static allocation file (a
directory-read error is returned only when it is a not-exist error),
then merge the dynamic lease entries, with static allocations winning
on conflict. -/
def dhcpAllAllocations (env : DnsmasqEnv) :
    Except String (List (List Nat × DHCPAlloc) × List (List Nat × DHCPAlloc)) := do
  -- First read all statically allocated IPs.
  let files ←
    match env.readDirHosts with
    | .ok entries => pure entries
    | .err true => throw "open dnsmasq.hosts: no such file or directory"
    | .err false => pure []
  let maps ← files.foldlM (fun st f => do
    let (v4s, v6s) := st
    let (_, v4, v6) ← dhcpStaticAllocation env f
    let v4s := match v4.ip with
      | some ip => assocSet v4s ip.key v4
      | none => v4s
    let v6s := match v6.ip with
      | some ip => assocSet v6s ip.key v6
      | none => v6s
    pure (v4s, v6s)) (([], []) : List (List Nat × DHCPAlloc) × List (List Nat × DHCPAlloc))
  -- Next read all dynamic allocated IPs.
  dhcpDynamicPhase env maps

/-! ## Concrete fixtures used by witnesses and counterexamples -/

/-- A host where every filesystem operation succeeds and every stat
finds a character device 1:3 with mode 0660 owned by uid 11, gid 13. -/
def hostAllOk : Host :=
  { stat := fun _ => .found ⟨.char, 1, 3, 0o660, 11, 13⟩
    pathExists := fun _ => true
    mkdirOk := fun _ => true
    runningInUserNS := false
    nodev := false
    mknodOk := fun _ => true
    chownOk := fun _ => true
    chmodOk := fun _ => true
    createOk := fun _ => true
    mountOk := fun _ => true }

/-- A plain unix-char device config with explicit attributes whose
in-instance destination is /dev/a (encoded "dev-a"). -/
def devConfA : DevConfig :=
  [("path", "/dev/a"), ("major", "1"), ("minor", "3"), ("mode", "0660")]

/-- A device config requesting ownership inheritance together with an
explicit uid. -/
def devConfInheritUid : DevConfig :=
  [("path", "/dev/a"), ("major", "1"), ("minor", "3"), ("mode", "0660"),
   ("ownership.inherit", "true"), ("uid", "5")]

/-- `hostAllOk` with the devices path mounted nodev, so that node
materialization fails. -/
def hostNodev : Host := { hostAllOk with nodev := true }

/-- `hostAllOk` with every stat failing with ENOENT. -/
def hostStatFail : Host := { hostAllOk with stat := fun _ => .enoent }

/-- An empty instance database. -/
def dbI0 : InstancesDB := ⟨[], [], [], [], 1⟩

/-- A sample instance object with config, device and profile children. -/
def oI : InstanceObject :=
  ⟨"default", "c1", "node1", 0, 1, false, 100, false, 0, "", 0,
   [("limits.cpu", "2")], [("root", 0)], [7]⟩

/-- The instance database after creating `oI` in `dbI0`. -/
def dbI1 : InstancesDB := (createInstance dbI0 oI).1

/-- An empty certificate database. -/
def dbC0 : CertificatesDB := ⟨[], 1⟩

/-- A sample certificate object. -/
def oC : CertificateObject := ⟨"abc123", 1, "client", "PEM", false⟩

/-- The certificate database after creating `oC` in `dbC0`. -/
def dbC1 : CertificatesDB := (createCertificate dbC0 oC).1

/-- A warning environment: type code 1 known, every entity resolves,
every node exists, one project, and a fresh UUID. -/
def warnEnv : WarningEnv :=
  ⟨[1], fun _ _ => true, fun _ => true, ["default"], "uuid-2"⟩

/-- A resolved warning for the tuple (1, n1, default, instance, 5). -/
def warnRow : WarningRow :=
  ⟨"uuid-1", "n1", "default", "instance", 5, 1, .statusResolved, 10, 10, 0, "old", 2⟩

/-! ## Theorems -/

/-- C1: for every instance filter, `GetInstances` either selects
exactly the one pre-registered statement whose required-field
combination equals the set of present filter fields — binding the
present fields' values in that statement's declared order — or fails
with "No statement exists for the given Filter" when no registered
combination matches exactly; the all-absent filter selects the
unfiltered select-all statement.  The same holds for
`GetCertificates` over its filter, and no two catalogue entries claim
the same field combination. -/
theorem getInstances_getCertificates_dispatch_exact :
    (∀ f : InstanceFilter, getInstancesStmtArgs f = instanceDispatchSpec f) ∧
    (∀ g : CertificateFilter, getCertificatesStmtArgs g = certificateDispatchSpec g) ∧
    instanceCatalogue.Pairwise (fun a b => instanceEntryMask a ≠ instanceEntryMask b) ∧
    certificateCatalogue.Pairwise (fun a b => certificateEntryMask a ≠ certificateEntryMask b) ∧
    getInstancesStmtArgs emptyInstanceFilter = .ok (.instanceObjects, []) ∧
    getCertificatesStmtArgs emptyCertificateFilter = .ok (.certificateObjects, []) := by
  refine ⟨?_, ?_, by decide, by decide, rfl, rfl⟩
  · intro f
    obtain ⟨i, p, n, no, t⟩ := f
    cases i <;> cases p <;> cases n <;> cases no <;> cases t <;> rfl
  · intro g
    obtain ⟨i, fp, n, t⟩ := g
    cases i <;> cases fp <;> cases n <;> cases t <;> rfl

/-- C4 counterexample: deleting an absent instance key yields the
generic error "Query deleted 0 rows instead of 1", not a typed
Not-Found condition — refuting the claim that the zero-row case of
`DeleteInstance` is surfaced as typed Not-Found. -/
theorem deleteInstance_zero_rows_generic_error :
    (deleteInstance dbI0 "default" "c1").2 =
      .error (.generic "Query deleted 0 rows instead of 1") ∧
    DbErr.isNotFound (.generic "Query deleted 0 rows instead of 1") = false :=
  ⟨rfl, rfl⟩

/-- C4 (amended): `DeleteCertificate` succeeds on exactly one affected
row and surfaces zero affected rows as the typed 404 Not-Found;
`DeleteInstance` also succeeds on exactly one affected row but
surfaces zero rows as the generic error "Query deleted 0 rows instead
of 1" — a failure, never silently swallowed, but not a typed
Not-Found. -/
theorem delete_single_row_contract :
    (∀ (db : CertificatesDB) (fp : String),
      db.certificates.filter (fun r => r.fingerprint == fp) = [] →
      deleteCertificate db fp = (db, .error (.statusErr 404 "Certificate not found"))) ∧
    (∀ (db : CertificatesDB) (fp : String) (row : CertificateRow),
      db.certificates.filter (fun r => r.fingerprint == fp) = [row] →
      (deleteCertificate db fp).2 = .ok ()) ∧
    (∀ (db : InstancesDB) (p n : String),
      db.instances.filter (fun r => r.project == p && r.name == n) = [] →
      deleteInstance db p n = (db, .error (.generic "Query deleted 0 rows instead of 1")) ∧
      DbErr.isNotFound (.generic "Query deleted 0 rows instead of 1") = false) ∧
    (∀ (db : InstancesDB) (p n : String) (row : InstanceRow),
      db.instances.filter (fun r => r.project == p && r.name == n) = [row] →
      (deleteInstance db p n).2 = .ok ()) := by
  refine ⟨?_, ?_, ?_, ?_⟩
  · intro db fp h
    have hself : db.certificates.filter (fun r => !(r.fingerprint == fp)) = db.certificates := by
      rw [List.filter_eq_self]
      intro a ha
      have h2 := List.filter_eq_nil_iff.mp h a ha
      rw [Bool.not_eq_true] at h2
      simp [h2]
    simp only [deleteCertificate]
    rw [h, hself]
    rfl
  · intro db fp row h
    simp only [deleteCertificate]
    rw [h]
    rfl
  · intro db p n h
    have hself : db.instances.filter (fun r => !(r.project == p && r.name == n)) = db.instances := by
      rw [List.filter_eq_self]
      intro a ha
      have h2 := List.filter_eq_nil_iff.mp h a ha
      rw [Bool.not_eq_true] at h2
      simp [h2]
    refine ⟨?_, rfl⟩
    simp only [deleteInstance]
    rw [h, hself]
    rfl
  · intro db p n row h
    simp only [deleteInstance]
    rw [h]
    rfl

/-- C4 witness: the contract applied to concrete one-row databases. -/
theorem delete_single_row_contract_witness :
    dbC1.certificates.filter (fun r => r.fingerprint == "zzz") = [] ∧
    deleteCertificate dbC1 "zzz" = (dbC1, .error (.statusErr 404 "Certificate not found")) ∧
    dbC1.certificates.filter (fun r => r.fingerprint == "abc123") =
      [⟨1, "abc123", 1, "client", "PEM", false⟩] ∧
    (deleteCertificate dbC1 "abc123").2 = .ok () ∧
    (deleteInstance dbI1 "default" "nope" = (dbI1, .error (.generic "Query deleted 0 rows instead of 1")) ∧
      DbErr.isNotFound (.generic "Query deleted 0 rows instead of 1") = false) ∧
    (deleteInstance dbI1 "default" "c1").2 = .ok () :=
  ⟨by decide, delete_single_row_contract.1 dbC1 "zzz" (by decide),
   by decide,
   delete_single_row_contract.2.1 dbC1 "abc123" ⟨1, "abc123", 1, "client", "PEM", false⟩ (by decide),
   delete_single_row_contract.2.2.1 dbI1 "default" "nope" (by decide),
   delete_single_row_contract.2.2.2 dbI1 "default" "c1"
     ⟨1, "default", "c1", "node1", 0, 1, false, 100, false, 0, "", 0⟩ (by decide)⟩

/-- C8: for every entity whose natural key already exists, Create
fails after its existence pre-check (instances with the generic
already-exists error, certificates with the typed 409 Conflict) and
writes nothing: the returned state equals the input state, so the
state after a failed second Create equals the state after the first. -/
theorem create_conflict_contract :
    (∀ (db : InstancesDB) (o : InstanceObject),
      instanceExists db o.project o.name = .ok true →
      createInstance db o = (db, .error (.generic "This \"instances\" entry already exists"))) ∧
    (∀ (db db1 : InstancesDB) (o : InstanceObject) (id : Int),
      createInstance db o = (db1, .ok id) →
      createInstance db1 o = (db1, .error (.generic "This \"instances\" entry already exists"))) ∧
    (∀ (db : CertificatesDB) (o : CertificateObject),
      certificateExists db o.fingerprint = .ok true →
      createCertificate db o = (db, .error (.statusErr 409 "This \"certificates\" entry already exists"))) ∧
    (∀ (db db1 : CertificatesDB) (o : CertificateObject) (id : Int),
      createCertificate db o = (db1, .ok id) →
      createCertificate db1 o = (db1, .error (.statusErr 409 "This \"certificates\" entry already exists"))) := by
  have hp1 : ∀ (db : InstancesDB) (o : InstanceObject),
      instanceExists db o.project o.name = .ok true →
      createInstance db o = (db, .error (.generic "This \"instances\" entry already exists")) := by
    intro db o h
    simp only [createInstance, h]
  have hp3 : ∀ (db : CertificatesDB) (o : CertificateObject),
      certificateExists db o.fingerprint = .ok true →
      createCertificate db o = (db, .error (.statusErr 409 "This \"certificates\" entry already exists")) := by
    intro db o h
    simp only [createCertificate, h]
  refine ⟨hp1, ?_, hp3, ?_⟩
  · intro db db1 o id h
    cases hex : instanceExists db o.project o.name with
    | error e => simp only [createInstance, hex] at h; simp at h
    | ok b =>
      cases b with
      | true => simp only [createInstance, hex] at h; simp at h
      | false =>
        simp only [createInstance, hex] at h
        injection h with h1 h2
        subst h1
        have hnil : db.instances.filter
            (fun r => r.project == o.project && r.name == o.name) = [] := by
          cases hm : db.instances.filter
              (fun r => r.project == o.project && r.name == o.name) with
          | nil => rfl
          | cons a as =>
            exfalso
            cases as with
            | nil =>
              simp only [instanceExists, getInstanceID, hm] at hex
              simp at hex
            | cons b bs =>
              simp only [instanceExists, getInstanceID, hm] at hex
              simp at hex
        apply hp1
        simp only [instanceExists, getInstanceID, updateInstanceProfiles,
          List.filter_append, hnil]
        simp [List.filter]
  · intro db db1 o id h
    cases hex : certificateExists db o.fingerprint with
    | error e => simp only [createCertificate, hex] at h; simp at h
    | ok b =>
      cases b with
      | true => simp only [createCertificate, hex] at h; simp at h
      | false =>
        simp only [createCertificate, hex] at h
        injection h with h1 h2
        subst h1
        have hnil : db.certificates.filter (fun r => r.fingerprint == o.fingerprint) = [] := by
          cases hm : db.certificates.filter (fun r => r.fingerprint == o.fingerprint) with
          | nil => rfl
          | cons a as =>
            exfalso
            cases as with
            | nil =>
              simp only [certificateExists, getCertificateID, hm] at hex
              simp at hex
            | cons b bs =>
              simp only [certificateExists, getCertificateID, hm] at hex
              simp at hex
        apply hp3
        simp only [certificateExists, getCertificateID, List.filter_append, hnil]
        simp [List.filter]

/-- C8 witness: create-then-create on concrete databases. -/
theorem create_conflict_contract_witness :
    createInstance dbI0 oI = (dbI1, .ok 1) ∧
    createInstance dbI1 oI = (dbI1, .error (.generic "This \"instances\" entry already exists")) ∧
    createCertificate dbC0 oC = (dbC1, .ok 1) ∧
    createCertificate dbC1 oC = (dbC1, .error (.statusErr 409 "This \"certificates\" entry already exists")) :=
  ⟨by decide, create_conflict_contract.2.1 dbI0 dbI1 oI 1 (by decide),
   by decide, create_conflict_contract.2.2.2 dbC0 dbC1 oC 1 (by decide)⟩

/-- C5: an Upsert whose lookup tuple matches exactly one record
updates that record — status becomes New when it was Resolved
(otherwise unchanged), the last message is replaced, last-seen is
updated, and the count is incremented by exactly 1; a tuple matching
zero records inserts a new record with status New and count 1; a tuple
matching more than one record fails with an internal-consistency error
and changes no record. -/
theorem upsertWarning_reconciliation :
    (∀ (env : WarningEnv) (table : List WarningRow) (nodeName projectName entityType : String)
        (entityID : Int) (typeCode : Nat) (message : String) (now : Int) (w : WarningRow),
      env.knownTypes.contains typeCode = true →
      (entityType = "" ∨ env.entityOk entityType entityID = true) →
      getWarningsByFilter table typeCode nodeName projectName entityType entityID = [w] →
      upsertWarning env table nodeName projectName entityType entityID typeCode message now =
        (table.map fun r =>
          if r.uuid == w.uuid then
            { r with lastMessage := message, lastSeenDate := now, updatedDate := now,
                     status := if w.status == .statusResolved then .statusNew else w.status,
                     count := r.count + 1 }
          else r, .ok ())) ∧
    (∀ (env : WarningEnv) (table : List WarningRow) (nodeName projectName entityType : String)
        (entityID : Int) (typeCode : Nat) (message : String) (now : Int),
      env.knownTypes.contains typeCode = true →
      (entityType = "" ∨ env.entityOk entityType entityID = true) →
      getWarningsByFilter table typeCode nodeName projectName entityType entityID = [] →
      (table.any fun r => r.uuid == env.freshUUID) = false →
      (nodeName = "" ∨ env.nodeExists nodeName = true) →
      (projectName = "" ∨ env.projectNames.contains projectName = true) →
      upsertWarning env table nodeName projectName entityType entityID typeCode message now =
        (table ++ [⟨env.freshUUID, nodeName, projectName, entityType, entityID, typeCode,
          .statusNew, now, now, 0, message, 1⟩], .ok ())) ∧
    (∀ (env : WarningEnv) (table : List WarningRow) (nodeName projectName entityType : String)
        (entityID : Int) (typeCode : Nat) (message : String) (now : Int)
        (w1 w2 : WarningRow) (rest : List WarningRow),
      env.knownTypes.contains typeCode = true →
      (entityType = "" ∨ env.entityOk entityType entityID = true) →
      getWarningsByFilter table typeCode nodeName projectName entityType entityID =
        w1 :: w2 :: rest →
      (upsertWarning env table nodeName projectName entityType entityID typeCode message now).1 =
        table ∧
      ∃ msg, (upsertWarning env table nodeName projectName entityType entityID typeCode
        message now).2 = .error (.generic msg)) := by
  refine ⟨?_, ?_, ?_⟩
  · intro env table nodeName projectName entityType entityID typeCode message now w
      htc hent hfil
    have hmem : w ∈ table := by
      have hw : w ∈ getWarningsByFilter table typeCode nodeName projectName entityType entityID := by
        rw [hfil]; exact List.mem_singleton.mpr rfl
      exact List.mem_of_mem_filter hw
    have hfmem : w ∈ table.filter fun r => r.uuid == w.uuid :=
      List.mem_filter.mpr ⟨hmem, by simp⟩
    have hlen : ((table.filter fun r => r.uuid == w.uuid).length == 0) = false := by
      have : table.filter (fun r => r.uuid == w.uuid) ≠ [] := List.ne_nil_of_mem hfmem
      simp [List.length_eq_zero, this]
    have hentc : (entityType != "" && !(env.entityOk entityType entityID)) = false := by
      rcases hent with h | h <;> simp [h]
    simp only [upsertWarning, htc, hentc, hfil, Bool.not_true, if_false,
      Bool.false_eq_true, updateWarningState, hlen]
  · intro env table nodeName projectName entityType entityID typeCode message now
      htc hent hfil hfresh hnode hproj
    have hentc : (entityType != "" && !(env.entityOk entityType entityID)) = false := by
      rcases hent with h | h <;> simp [h]
    have hnodec : (nodeName != "" && !(env.nodeExists nodeName)) = false := by
      rcases hnode with h | h <;> simp [h]
    have hprojc : (projectName != "" && !(env.projectNames.contains projectName)) = false := by
      rcases hproj with h | h
      · simp [h]
      · rw [h]; simp
    simp only [upsertWarning, htc, hentc, hfil, Bool.not_true, if_false,
      Bool.false_eq_true, createWarning, hfresh, hnodec, hprojc]
  · intro env table nodeName projectName entityType entityID typeCode message now
      w1 w2 rest htc hent hfil
    have hentc : (entityType != "" && !(env.entityOk entityType entityID)) = false := by
      rcases hent with h | h <;> simp [h]
    constructor
    · simp only [upsertWarning, htc, hentc, hfil, Bool.not_true, if_false,
        Bool.false_eq_true]
    · simp only [upsertWarning, htc, hentc, hfil, Bool.not_true, if_false,
        Bool.false_eq_true]
      exact ⟨_, rfl⟩

/-- C5 witness: the three cases on concrete warning tables. -/
theorem upsertWarning_reconciliation_witness :
    (getWarningsByFilter [warnRow] 1 "n1" "default" "instance" 5 = [warnRow] ∧
      upsertWarning warnEnv [warnRow] "n1" "default" "instance" 5 1 "msg" 20 =
        ([⟨"uuid-1", "n1", "default", "instance", 5, 1, .statusNew, 10, 20, 20, "msg", 3⟩],
          .ok ())) ∧
    (getWarningsByFilter [] 1 "n1" "default" "instance" 5 = [] ∧
      upsertWarning warnEnv [] "n1" "default" "instance" 5 1 "msg" 20 =
        ([⟨"uuid-2", "n1", "default", "instance", 5, 1, .statusNew, 20, 20, 0, "msg", 1⟩],
          .ok ())) ∧
    (getWarningsByFilter [warnRow, ⟨"uuid-3", "n1", "default", "instance", 5, 1, .statusNew, 11, 11, 0, "x", 1⟩] 1 "n1" "default" "instance" 5 =
        [warnRow, ⟨"uuid-3", "n1", "default", "instance", 5, 1, .statusNew, 11, 11, 0, "x", 1⟩] ∧
      (upsertWarning warnEnv [warnRow, ⟨"uuid-3", "n1", "default", "instance", 5, 1, .statusNew, 11, 11, 0, "x", 1⟩] "n1" "default" "instance" 5 1 "msg" 20).1 =
        [warnRow, ⟨"uuid-3", "n1", "default", "instance", 5, 1, .statusNew, 11, 11, 0, "x", 1⟩] ∧
      ∃ msg, (upsertWarning warnEnv [warnRow, ⟨"uuid-3", "n1", "default", "instance", 5, 1, .statusNew, 11, 11, 0, "x", 1⟩] "n1" "default" "instance" 5 1 "msg" 20).2 =
        .error (.generic msg)) :=
  ⟨⟨by decide,
    upsertWarning_reconciliation.1 warnEnv [warnRow] "n1" "default" "instance" 5 1 "msg" 20
      warnRow (by decide) (Or.inr rfl) (by decide)⟩,
   ⟨by decide,
    upsertWarning_reconciliation.2.1 warnEnv [] "n1" "default" "instance" 5 1 "msg" 20
      (by decide) (Or.inr rfl) (by decide) (by decide) (Or.inr rfl) (Or.inr (by decide))⟩,
   ⟨by decide,
    (upsertWarning_reconciliation.2.2 warnEnv
      [warnRow, ⟨"uuid-3", "n1", "default", "instance", 5, 1, .statusNew, 11, 11, 0, "x", 1⟩]
      "n1" "default" "instance" 5 1 "msg" 20 warnRow
      ⟨"uuid-3", "n1", "default", "instance", 5, 1, .statusNew, 11, 11, 0, "x", 1⟩ []
      (by decide) (Or.inr rfl) (by decide)).1,
    (upsertWarning_reconciliation.2.2 warnEnv
      [warnRow, ⟨"uuid-3", "n1", "default", "instance", 5, 1, .statusNew, 11, 11, 0, "x", 1⟩]
      "n1" "default" "instance" 5 1 "msg" 20 warnRow
      ⟨"uuid-3", "n1", "default", "instance", 5, 1, .statusNew, 11, 11, 0, "x", 1⟩ []
      (by decide) (Or.inr rfl) (by decide)).2⟩⟩

/-- C7: `UpdateStaticEntry` builds exactly one line — the lowercased
MAC, then ",<ipv4>" when an IPv4 address is given, then ",[<ipv6>]"
when an IPv6 address is given, then ",<hostname>" only when dns.mode
is unset or "managed" — and writes nothing (returning success) when
nothing was appended after the MAC; in particular the managed-mode
example writes "aa:bb:cc:dd:ee:ff,10.0.0.5,web1" plus a newline. -/
theorem updateStaticEntry_line_shape :
    (∀ (network p i d : String) (cfg : DevConfig) (hw v4 v6 dns : String),
      updateStaticEntry network p i d cfg hw v4 v6 dns =
        (if v4 == "" && v6 == "" &&
            !(confGet cfg "dns.mode" == "" || confGet cfg "dns.mode" == "managed") then
          none
         else
          some (dhcpStaticAllocationPath network (staticAllocationFileName p i d),
            strToLower hw ++ (if v4 != "" then "," ++ v4 else "") ++
              (if v6 != "" then ",[" ++ v6 ++ "]" else "") ++
              (if confGet cfg "dns.mode" == "" || confGet cfg "dns.mode" == "managed" then
                "," ++ dns
               else "") ++ "\n"))) ∧
    updateStaticEntry "lxdbr0" "default" "web1" "eth0" [("dns.mode", "managed")]
        "aa:bb:cc:dd:ee:ff" "10.0.0.5" "" "web1" =
      some ("networks/lxdbr0/dnsmasq.hosts/web1.eth0", "aa:bb:cc:dd:ee:ff,10.0.0.5,web1\n") := by
  refine ⟨?_, by decide⟩
  intro network p i d cfg hw v4 v6 dns
  have l1 : String.length "," = 1 := rfl
  have l2 : String.length ",[" = 2 := rfl
  have l3 : String.length "]" = 1 := rfl
  obtain hb4 | hb4 := Bool.eq_false_or_eq_true (v4 == "") <;>
    obtain hb6 | hb6 := Bool.eq_false_or_eq_true (v6 == "") <;>
    obtain hbd | hbd := Bool.eq_false_or_eq_true
      (confGet cfg "dns.mode" == "" || confGet cfg "dns.mode" == "managed") <;>
  simp only [updateStaticEntry, bne, hb4, hb6, hbd, Bool.not_true, Bool.not_false,
    if_true, if_false, Bool.false_eq_true, Bool.true_eq_false, Bool.and_true,
    Bool.and_false, Bool.true_and, Bool.false_and, Bool.and_self, ite_true, ite_false] <;>
  (split
   · next h =>
       first
       | rfl
       | (exfalso
          rw [beq_iff_eq] at h
          have hlen := congrArg String.length h
          simp only [String.length_append, l1, l2, l3] at hlen
          omega)
   · next h =>
       first
       | (exact absurd (beq_self_eq_true _) h)
       | simp only [String.append_assoc, String.append_empty, String.empty_append])

/-- C10: when listing the static-allocation directory,
`DHCPAllAllocations` returns the directory-read error only when it is
a not-exist error; any other directory-read failure is ignored and the
function proceeds exactly as with an empty static set, merging only
the dynamic lease entries. -/
theorem dhcpAllAllocations_dir_error_handling :
    (∀ (rf : String → Except String (List String)) (rl : Except String (List String))
        (pip : String → Option IPAddr) (pmac : String → Option String),
      dhcpAllAllocations ⟨.err true, rf, rl, pip, pmac⟩ =
        .error "open dnsmasq.hosts: no such file or directory") ∧
    (∀ (rf : String → Except String (List String)) (rl : Except String (List String))
        (pip : String → Option IPAddr) (pmac : String → Option String),
      dhcpAllAllocations ⟨.err false, rf, rl, pip, pmac⟩ =
        dhcpDynamicPhase ⟨.err false, rf, rl, pip, pmac⟩ ([], [])) ∧
    (∀ (rf : String → Except String (List String)) (rl : Except String (List String))
        (pip : String → Option IPAddr) (pmac : String → Option String),
      dhcpAllAllocations ⟨.err false, rf, rl, pip, pmac⟩ =
        dhcpAllAllocations ⟨.ok [], rf, rl, pip, pmac⟩) :=
  ⟨fun _ _ _ _ => rfl, fun _ _ _ _ => rfl, fun _ _ _ _ => rfl⟩

/-- Unpacking a successful `Except` bind. -/
theorem bind_eq_ok {ε α β : Type} {a : Except ε α} {f : α → Except ε β} {b : β}
    (h : (a >>= f) = .ok b) : ∃ x, a = .ok x ∧ f x = .ok b := by
  cases a with
  | error e => exact absurd h (by simp [Bind.bind, Except.bind])
  | ok x => exact ⟨x, rfl, by simpa [Bind.bind, Except.bind] using h⟩

/-- C6 counterexample: with ownership inheritance requested and an
explicit uid of 5, `UnixDeviceCreate` produces a device owned by uid 0
(the explicit value is ignored), while the gid is inherited (13) — so
the explicit value is not "used for that field". -/
theorem unixDeviceCreate_inherit_explicit_uid_ignored :
    (unixDeviceCreate hostAllOk false "/var/devices" "unix.d1" devConfInheritUid true).map
      (fun d => (d.uid, d.gid)) = .ok (0, 13) ∧ (0 : Int) ≠ 5 :=
  ⟨rfl, by decide⟩

/-- C6 (amended): in `UnixDeviceCreate` the ownership resolution stats
the source for uid and gid independently when inheritance is
requested, but an explicit "uid"/"gid" config value merely suppresses
inheriting that field, leaving the default 0 (the explicit value is
not parsed); without inheritance, explicit values are used and absent
values default to 0/0.  The ownership a successful `UnixDeviceCreate`
returns is exactly the resolved one. -/
theorem resolveOwner_inheritance_contract :
    (∀ (host : Host) (m : DevConfig) (srcPath : String) (st : UnixStat),
      isTrue (confGet m "ownership.inherit") = true →
      host.stat srcPath = .found st →
      resolveOwner host m srcPath = .ok
        ((if confGet m "uid" == "" then Int.ofNat st.uid else 0),
         (if confGet m "gid" == "" then Int.ofNat st.gid else 0))) ∧
    (∀ (host : Host) (m : DevConfig) (srcPath : String),
      isTrue (confGet m "ownership.inherit") = false →
      confGet m "uid" = "" →
      confGet m "gid" = "" →
      resolveOwner host m srcPath = .ok (0, 0)) ∧
    (∀ (host : Host) (m : DevConfig) (srcPath : String) (u g : Int),
      isTrue (confGet m "ownership.inherit") = false →
      atoi? (confGet m "uid") = some u →
      atoi? (confGet m "gid") = some g →
      resolveOwner host m srcPath = .ok (u, g)) ∧
    (∀ (host : Host) (idm : Bool) (dp pfx : String) (m : DevConfig) (dm : Bool)
        (d : UnixDevice),
      unixDeviceCreate host idm dp pfx m dm = .ok d →
      ∃ ug : Int × Int, resolveOwner host m (unixDeviceSourcePath m) = .ok ug ∧
        d.uid = ug.1 ∧ d.gid = ug.2) := by
  refine ⟨?_, ?_, ?_, ?_⟩
  · intro host m srcPath st hinh hstat
    unfold resolveOwner unixDeviceOwnership
    rw [hinh, hstat]
    obtain hb | hb := Bool.eq_false_or_eq_true (confGet m "uid" == "") <;>
      obtain hg | hg := Bool.eq_false_or_eq_true (confGet m "gid" == "") <;>
      simp [hb, hg, Bind.bind, Except.bind, pure, Except.pure]
  · intro host m srcPath hinh hu hg
    unfold resolveOwner
    rw [hinh]
    simp [hu, hg, Bind.bind, Except.bind, pure, Except.pure]
  · intro host m srcPath u g hinh hu hg
    have hune : (confGet m "uid" == "") = false := by
      obtain hb | hb := Bool.eq_false_or_eq_true (confGet m "uid" == "")
      all_goals first
      | exact hb
      | (rw [beq_iff_eq] at hb
         rw [hb] at hu
         exact absurd hu (by simp [atoi?, allDigits]))
    have hgne : (confGet m "gid" == "") = false := by
      obtain hb | hb := Bool.eq_false_or_eq_true (confGet m "gid" == "")
      all_goals first
      | exact hb
      | (rw [beq_iff_eq] at hb
         rw [hb] at hg
         exact absurd hg (by simp [atoi?, allDigits]))
    unfold resolveOwner
    rw [hinh]
    simp [bne, hune, hgne, hu, hg, Bind.bind, Except.bind, pure, Except.pure]
  · intro host idm dp pfx m dm d h
    unfold unixDeviceCreate at h
    obtain ⟨u0, h0, h⟩ := bind_eq_ok h
    obtain ⟨mm, hmm', h⟩ := bind_eq_ok h
    obtain ⟨maj, mi⟩ := mm
    dsimp only at h
    obtain ⟨md, hmd, h⟩ := bind_eq_ok h
    obtain ⟨ug, hro, h⟩ := bind_eq_ok h
    obtain ⟨uu, gg⟩ := ug
    dsimp only at h
    obtain ⟨u1, hu1, h⟩ := bind_eq_ok h
    obtain ⟨u2, hu2, h⟩ := bind_eq_ok h
    refine ⟨(uu, gg), hro, ?_, ?_⟩ <;>
    · cases h
      rfl

/-- C6 witness: the four parts of the ownership contract applied to
concrete hosts and configs. -/
theorem resolveOwner_inheritance_contract_witness :
    (isTrue (confGet devConfInheritUid "ownership.inherit") = true ∧
      hostAllOk.stat "/dev/a" = .found ⟨.char, 1, 3, 0o660, 11, 13⟩ ∧
      resolveOwner hostAllOk devConfInheritUid "/dev/a" = .ok (0, 13)) ∧
    (isTrue (confGet devConfA "ownership.inherit") = false ∧
      confGet devConfA "uid" = "" ∧ confGet devConfA "gid" = "" ∧
      resolveOwner hostAllOk devConfA "/dev/a" = .ok (0, 0)) ∧
    (atoi? (confGet [("uid", "5"), ("gid", "7")] "uid") = some 5 ∧
      atoi? (confGet [("uid", "5"), ("gid", "7")] "gid") = some 7 ∧
      resolveOwner hostAllOk [("uid", "5"), ("gid", "7")] "/dev/a" = .ok (5, 7)) ∧
    (unixDeviceCreate hostAllOk false "/var/devices" "unix.d1" devConfInheritUid true =
        .ok ⟨"/var/devices/unix.d1.dev-a", "dev/a", "c", 1, 3, 0o20660, 0, 13⟩ ∧
      ∃ ug : Int × Int,
        resolveOwner hostAllOk devConfInheritUid (unixDeviceSourcePath devConfInheritUid) =
          .ok ug ∧
        (⟨"/var/devices/unix.d1.dev-a", "dev/a", "c", 1, 3, 0o20660, 0, 13⟩ : UnixDevice).uid = ug.1 ∧
        (⟨"/var/devices/unix.d1.dev-a", "dev/a", "c", 1, 3, 0o20660, 0, 13⟩ : UnixDevice).gid = ug.2) :=
  ⟨⟨rfl, rfl,
    resolveOwner_inheritance_contract.1 hostAllOk devConfInheritUid "/dev/a"
      ⟨.char, 1, 3, 0o660, 11, 13⟩ rfl rfl⟩,
   ⟨rfl, rfl, rfl,
    resolveOwner_inheritance_contract.2.1 hostAllOk devConfA "/dev/a" rfl rfl rfl⟩,
   ⟨by decide, by decide,
    resolveOwner_inheritance_contract.2.2.1 hostAllOk [("uid", "5"), ("gid", "7")] "/dev/a"
      5 7 rfl (by decide) (by decide)⟩,
   ⟨by decide,
    resolveOwner_inheritance_contract.2.2.2 hostAllOk false "/var/devices" "unix.d1"
      devConfInheritUid true ⟨"/var/devices/unix.d1.dev-a", "dev/a", "c", 1, 3, 0o20660, 0, 13⟩
      (by decide)⟩⟩

/-- `pure` for `Except` is `ok`. -/
theorem except_pure {ε α : Type} (x : α) : (pure x : Except ε α) = .ok x := rfl

/-- `Except.ok` on the left of a bind reduces. -/
theorem except_ok_bind {ε α β : Type} (x : α) (f : α → Except ε β) :
    ((Except.ok x : Except ε α) >>= f) = f x := rfl

/-- `Except.error` on the left of a bind reduces. -/
theorem except_error_bind {ε α β : Type} (e : ε) (f : α → Except ε β) :
    ((Except.error e : Except ε α) >>= f) = Except.error e := rfl

/-- A well-formed directory scan that contains a match stops with
`true`. -/
theorem setupDupeScan_eq_true (ourEnc : String) (l : List String)
    (hwf : ∀ e ∈ l, (afterLastDot? e).isSome)
    (hex : ∃ e ∈ l, afterLastDot? e = some ourEnc) :
    setupDupeScan ourEnc l = .ok true := by
  induction l with
  | nil =>
    obtain ⟨e, he, -⟩ := hex
    exact absurd he (List.not_mem_nil e)
  | cons a as ih =>
    obtain ⟨enc, henc⟩ := Option.isSome_iff_exists.mp (hwf a (List.mem_cons_self a as))
    simp only [setupDupeScan, henc]
    cases hbe : enc == ourEnc with
    | true => simp [hbe]
    | false =>
      simp only [hbe, Bool.false_eq_true, if_false]
      apply ih
      · intro e he
        exact hwf e (List.mem_cons_of_mem a he)
      · obtain ⟨e, he, hee⟩ := hex
        rcases List.mem_cons.mp he with he' | he'
        · subst he'
          rw [henc] at hee
          have : enc = ourEnc := Option.some.inj hee
          rw [this] at hbe
          simp at hbe
        · exact ⟨e, he', hee⟩

/-- A well-formed directory scan with no match returns `false`. -/
theorem setupDupeScan_eq_false (ourEnc : String) (l : List String)
    (h : ∀ e ∈ l, ∃ enc, afterLastDot? e = some enc ∧ enc ≠ ourEnc) :
    setupDupeScan ourEnc l = .ok false := by
  induction l with
  | nil => rfl
  | cons a as ih =>
    obtain ⟨enc, henc, hne⟩ := h a (List.mem_cons_self a as)
    simp only [setupDupeScan, henc]
    have hbe : (enc == ourEnc) = false := beq_eq_false_iff_ne.mpr hne
    simp only [hbe, Bool.false_eq_true, if_false]
    exact ih fun e he => h e (List.mem_cons_of_mem a he)

/-- A well-formed directory scan returns some boolean. -/
theorem setupDupeScan_isOk (ourEnc : String) (l : List String)
    (hwf : ∀ e ∈ l, (afterLastDot? e).isSome) :
    ∃ b, setupDupeScan ourEnc l = .ok b := by
  induction l with
  | nil => exact ⟨false, rfl⟩
  | cons a as ih =>
    obtain ⟨enc, henc⟩ := Option.isSome_iff_exists.mp (hwf a (List.mem_cons_self a as))
    simp only [setupDupeScan, henc]
    cases hbe : enc == ourEnc with
    | true => exact ⟨true, by simp [hbe]⟩
    | false =>
      obtain ⟨b, hb⟩ := ih fun e he => hwf e (List.mem_cons_of_mem a he)
      exact ⟨b, by simp [hbe, hb]⟩

/-- The scan fails with "Invalid device name" at the first dot-less
entry, provided no earlier entry matched. -/
theorem setupDupeScan_eq_error (ourEnc : String) (pre post : List String) (bad : String)
    (hpre : ∀ e ∈ pre, ∃ enc, afterLastDot? e = some enc ∧ enc ≠ ourEnc)
    (hbad : afterLastDot? bad = none) :
    setupDupeScan ourEnc (pre ++ bad :: post) = .error s!"Invalid device name {goQuote bad}" := by
  induction pre with
  | nil => simp only [List.nil_append, setupDupeScan, hbad]
  | cons a as ih =>
    obtain ⟨enc, henc, hne⟩ := hpre a (List.mem_cons_self a as)
    simp only [List.cons_append, setupDupeScan, henc]
    have hbe : (enc == ourEnc) = false := beq_eq_false_iff_ne.mpr hne
    simp only [hbe, Bool.false_eq_true, if_false]
    exact ih fun e he => hpre e (List.mem_cons_of_mem a he)

/-- C2: when some existing (well-formed) device file encodes the same
destination path as the new device, Setup still runs Create but
appends no mount and no cgroup entry; when no existing file matches,
Setup appends exactly one bind-mount entry with options
["bind", "create=file"] and static owner shift and exactly one
"devices.allow" entry "<type> <major>:<minor> rwm"; a Create failure
still fails Setup in either case. -/
theorem unixDeviceSetup_dedup_suppression :
    (∀ (host : Host) (dents : List String) (dp tp dn : String) (m : DevConfig) (dm : Bool)
        (rc : RunConfig) (d : UnixDevice),
      (∀ e ∈ dents, (afterLastDot? e).isSome) →
      (∃ e ∈ dents, afterLastDot? e =
        some (pathNameEncode (trimLeadingSlash (unixDeviceDestPath m)))) →
      unixDeviceCreate host false dp (deviceJoinPath [tp, dn]) m dm = .ok d →
      unixDeviceSetup host (.ok dents) dp tp dn m dm rc = .ok rc) ∧
    (∀ (host : Host) (dents : List String) (dp tp dn : String) (m : DevConfig) (dm : Bool)
        (rc : RunConfig) (d : UnixDevice),
      (∀ e ∈ dents, ∃ enc, afterLastDot? e = some enc ∧
        enc ≠ pathNameEncode (trimLeadingSlash (unixDeviceDestPath m))) →
      unixDeviceCreate host false dp (deviceJoinPath [tp, dn]) m dm = .ok d →
      unixDeviceSetup host (.ok dents) dp tp dn m dm rc = .ok
        { rc with
          mounts := rc.mounts ++
            [{ devSource := some d.hostPath
               targetPath := d.relativePath
               fsType := "none"
               opts := ["bind", "create=file"]
               ownerShift := mountOwnerShiftStatic }]
          cgroups := rc.cgroups ++ [("devices.allow", s!"{d.typ} {d.major}:{d.minor} rwm")] }) ∧
    (∀ (host : Host) (dents : List String) (dp tp dn : String) (m : DevConfig) (dm : Bool)
        (rc : RunConfig) (emsg : String),
      (∀ e ∈ dents, (afterLastDot? e).isSome) →
      unixDeviceCreate host false dp (deviceJoinPath [tp, dn]) m dm = .error emsg →
      unixDeviceSetup host (.ok dents) dp tp dn m dm rc = .error emsg) := by
  refine ⟨?_, ?_, ?_⟩
  · intro host dents dp tp dn m dm rc d hwf hdupe hcreate
    have hscan := setupDupeScan_eq_true
      (pathNameEncode (trimLeadingSlash (unixDeviceDestPath m))) dents hwf hdupe
    simp only [unixDeviceSetup, pure_bind, hscan, hcreate, except_ok_bind, except_pure, if_true]
  · intro host dents dp tp dn m dm rc d hnone hcreate
    have hscan := setupDupeScan_eq_false
      (pathNameEncode (trimLeadingSlash (unixDeviceDestPath m))) dents hnone
    simp only [unixDeviceSetup, pure_bind, hscan, hcreate, except_ok_bind, except_pure, Bool.false_eq_true, if_false]
  · intro host dents dp tp dn m dm rc emsg hwf hcreate
    obtain ⟨b, hscan⟩ := setupDupeScan_isOk
      (pathNameEncode (trimLeadingSlash (unixDeviceDestPath m))) dents hwf
    simp only [unixDeviceSetup, pure_bind, hscan, hcreate, except_ok_bind, except_pure, except_error_bind]

/-- C2 witness: the three Setup outcomes on concrete directories. -/
theorem unixDeviceSetup_dedup_suppression_witness :
    ((∀ e ∈ ["x.dev-a"], (afterLastDot? e).isSome) ∧
      (∃ e ∈ ["x.dev-a"], afterLastDot? e =
        some (pathNameEncode (trimLeadingSlash (unixDeviceDestPath devConfA)))) ∧
      unixDeviceCreate hostAllOk false "/var/devices" (deviceJoinPath ["unix", "d1"])
        devConfA true = .ok ⟨"/var/devices/unix.d1.dev-a", "dev/a", "c", 1, 3, 0o20660, 0, 0⟩ ∧
      unixDeviceSetup hostAllOk (.ok ["x.dev-a"]) "/var/devices" "unix" "d1" devConfA true
        ⟨[], []⟩ = .ok ⟨[], []⟩) ∧
    (unixDeviceSetup hostAllOk (.ok ["x.dev-b"]) "/var/devices" "unix" "d1" devConfA true
        ⟨[], []⟩ =
      .ok ⟨[⟨some "/var/devices/unix.d1.dev-a", "dev/a", "none", ["bind", "create=file"],
            "static"⟩],
           [("devices.allow", "c 1:3 rwm")]⟩) ∧
    (unixDeviceCreate hostNodev false "/var/devices" (deviceJoinPath ["unix", "d1"])
        devConfA true = .error "Can't create device as devices path is mounted nodev" ∧
      unixDeviceSetup hostNodev (.ok ["x.dev-b"]) "/var/devices" "unix" "d1" devConfA true
        ⟨[], []⟩ = .error "Can't create device as devices path is mounted nodev") :=
  ⟨⟨by decide, ⟨"x.dev-a", by decide, by decide⟩, by decide,
    unixDeviceSetup_dedup_suppression.1 hostAllOk ["x.dev-a"] "/var/devices" "unix" "d1"
      devConfA true ⟨[], []⟩ ⟨"/var/devices/unix.d1.dev-a", "dev/a", "c", 1, 3, 0o20660, 0, 0⟩
      (by decide) ⟨"x.dev-a", by decide, by decide⟩ (by decide)⟩,
   unixDeviceSetup_dedup_suppression.2.1 hostAllOk ["x.dev-b"] "/var/devices" "unix" "d1"
      devConfA true ⟨[], []⟩ ⟨"/var/devices/unix.d1.dev-a", "dev/a", "c", 1, 3, 0o20660, 0, 0⟩
      (by
        intro e he
        rw [List.mem_singleton] at he
        subst he
        exact ⟨"dev-b", rfl, by decide⟩)
      (by decide),
   ⟨by decide,
    unixDeviceSetup_dedup_suppression.2.2 hostNodev ["x.dev-b"] "/var/devices" "unix" "d1"
      devConfA true ⟨[], []⟩ "Can't create device as devices path is mounted nodev"
      (by decide) (by decide)⟩⟩

/-- C9 counterexample: the devices directory holds the dot-less file
"nodot", yet Setup succeeds because an earlier entry matches the new
device's destination and the scan stops there — refuting "fails ...
whenever any file in the devices directory contains no '.'". -/
theorem unixDeviceSetup_ignores_dotless_after_dupe :
    ("nodot" ∈ ["x.dev-a", "nodot"] ∧ afterLastDot? "nodot" = none) ∧
    unixDeviceSetup hostAllOk (.ok ["x.dev-a", "nodot"]) "/var/devices" "unix" "d1" devConfA
      true ⟨[], []⟩ = .ok ⟨[], []⟩ :=
  ⟨⟨by decide, by decide⟩, by decide⟩

/-- A dot-less element makes the others' encoded-path extraction fail. -/
theorem collectOtherEncs_error (l : List String) (e : String) (he : e ∈ l)
    (hd : afterLastDot? e = none) : ∃ msg, collectOtherEncs l = Except.error msg := by
  induction l with
  | nil => exact absurd he (List.not_mem_nil e)
  | cons a as ih =>
    rcases List.mem_cons.mp he with he' | he'
    · subst he'
      exact ⟨s!"Invalid device name {goQuote e}", by simp only [collectOtherEncs, hd]⟩
    · cases ha : afterLastDot? a with
      | none =>
        exact ⟨s!"Invalid device name {goQuote a}", by simp only [collectOtherEncs, ha]⟩
      | some enc =>
        obtain ⟨msg, hmsg⟩ := ih he'
        exact ⟨msg, by simp only [collectOtherEncs, ha, hmsg]⟩

/-- A dot-less element among "our" device files makes the removal loop
fail. -/
theorem removeLoop_error_dotless (host : Host) (dp : String) (encs ours : List String)
    (rc : RunConfig) (e : String) (he : e ∈ ours) (hd : afterLastDot? e = none) :
    ∃ msg, removeLoop host dp encs ours rc = .error msg := by
  induction ours generalizing rc with
  | nil => exact absurd he (List.not_mem_nil e)
  | cons a as ih =>
    rcases List.mem_cons.mp he with he' | he'
    · subst he'
      exact ⟨s!"Invalid device name {goQuote e}", by simp only [removeLoop, hd]⟩
    · cases ha : afterLastDot? a with
      | none =>
        exact ⟨s!"Invalid device name {goQuote a}", by simp only [removeLoop, ha]⟩
      | some enc =>
        cases hc : encs.contains enc with
        | true =>
          obtain ⟨msg, hmsg⟩ := ih rc he'
          exact ⟨msg, by simp only [removeLoop, ha, hc, if_true]; exact hmsg⟩
        | false =>
          cases hattr : unixDeviceAttributes host (filepathJoin dp a) with
          | error emsg =>
            refine ⟨s!"Failed to get UNIX device attributes for {goQuote (filepathJoin dp a)}: {emsg}", ?_⟩
            simp only [removeLoop, ha, hc, Bool.false_eq_true, if_false, hattr]
          | ok attrs =>
            obtain ⟨t, mj, mi⟩ := attrs
            obtain ⟨msg, hmsg⟩ := ih _ he'
            refine ⟨msg, ?_⟩
            simp only [removeLoop, ha, hc, Bool.false_eq_true, if_false, hattr]
            exact hmsg

/-- C9 (amended): `unixDeviceSetup` fails with "Invalid device name"
(before creating anything) when a dot-less file is scanned before any
entry matching the new device's destination — the scan stops at the
first duplicate, so a dot-less file after a duplicate entry is not
detected; `unixDeviceRemove` fails whenever any entry, matching or
not, lacks a '.'. -/
theorem invalid_device_name_contract :
    (∀ (host : Host) (pre post : List String) (bad : String) (dp tp dn : String)
        (m : DevConfig) (dm : Bool) (rc : RunConfig),
      afterLastDot? bad = none →
      (∀ e ∈ pre, ∃ enc, afterLastDot? e = some enc ∧
        enc ≠ pathNameEncode (trimLeadingSlash (unixDeviceDestPath m))) →
      unixDeviceSetup host (.ok (pre ++ bad :: post)) dp tp dn m dm rc =
        .error s!"Invalid device name {goQuote bad}") ∧
    (∀ (host : Host) (dents : List String) (dp tp dn op : String) (rc : RunConfig)
        (e : String),
      e ∈ dents → afterLastDot? e = none →
      ∃ msg, unixDeviceRemove host (.ok dents) dp tp dn op rc = .error msg) := by
  constructor
  · intro host pre post bad dp tp dn m dm rc hbad hpre
    have hscan := setupDupeScan_eq_error
      (pathNameEncode (trimLeadingSlash (unixDeviceDestPath m))) pre post bad hpre hbad
    simp only [unixDeviceSetup, pure_bind, hscan, except_error_bind]
  · intro host dents dp tp dn op rc e he hd
    cases hp : goHasPfx e (removeOurPfx tp dn op) with
    | true =>
      have he' : e ∈ dents.filter fun devName => goHasPfx devName (removeOurPfx tp dn op) :=
        List.mem_filter.mpr ⟨he, hp⟩
      cases hm : collectOtherEncs (dents.filter fun devName =>
          !(goHasPfx devName (removeOurPfx tp dn op))) with
      | error msg =>
        exact ⟨msg, by simp only [unixDeviceRemove, pure_bind, hm, except_error_bind]⟩
      | ok encs =>
        obtain ⟨msg, hmsg⟩ := removeLoop_error_dotless host dp encs _ rc e he' hd
        refine ⟨msg, ?_⟩
        simp only [unixDeviceRemove, pure_bind, hm, except_ok_bind]
        exact hmsg
    | false =>
      have he' : e ∈ dents.filter fun devName => !(goHasPfx devName (removeOurPfx tp dn op)) :=
        List.mem_filter.mpr ⟨he, by rw [hp]; rfl⟩
      obtain ⟨msg, hmsg⟩ := collectOtherEncs_error _ e he' hd
      exact ⟨msg, by simp only [unixDeviceRemove, pure_bind, hmsg, except_error_bind]⟩

/-- C9 witness: concrete dot-less failures for Setup and Remove. -/
theorem invalid_device_name_contract_witness :
    (afterLastDot? "plain" = none ∧
      unixDeviceSetup hostAllOk (.ok (["q.other"] ++ "plain" :: [])) "/var/devices" "unix"
        "d1" devConfA true ⟨[], []⟩ = .error "Invalid device name \"plain\"") ∧
    ("plain" ∈ ["plain"] ∧
      ∃ msg, unixDeviceRemove hostAllOk (.ok ["plain"]) "/var/devices" "unix" "d1" ""
        ⟨[], []⟩ = .error msg) :=
  ⟨⟨by decide,
    invalid_device_name_contract.1 hostAllOk ["q.other"] [] "plain" "/var/devices" "unix"
      "d1" devConfA true ⟨[], []⟩ (by decide)
      (by
        intro e he
        rw [List.mem_singleton] at he
        subst he
        exact ⟨"other", rfl, by decide⟩)⟩,
   ⟨by decide,
    invalid_device_name_contract.2 hostAllOk ["plain"] "/var/devices" "unix" "d1" ""
      ⟨[], []⟩ "plain" (by decide) (by decide)⟩⟩

/-- Well-formed other-device files decode to their encoded destination
paths, in order. -/
theorem collectOtherEncs_ok (l : List String)
    (hwf : ∀ e ∈ l, (afterLastDot? e).isSome) :
    collectOtherEncs l = .ok (l.map encodedDest) := by
  induction l with
  | nil => rfl
  | cons a as ih =>
    obtain ⟨enc, henc⟩ := Option.isSome_iff_exists.mp (hwf a (List.mem_cons_self a as))
    have hrec := ih fun e he => hwf e (List.mem_cons_of_mem a he)
    simp only [collectOtherEncs, henc, hrec, List.map_cons]
    simp [encodedDest, henc]

/-- The removal loop on well-formed entries whose non-duplicate members
all stat successfully: append one unmount instruction (decoded
destination only) and one re-derived deny rule per non-duplicate
entry, in order, and nothing for entries whose destination another
device still uses. -/
theorem removeLoop_ok {host : Host} {dp : String} {encs ours : List String} {rc : RunConfig}
    (hwf : ∀ e ∈ ours, (afterLastDot? e).isSome)
    (hstat : ∀ e ∈ ours, encs.contains (encodedDest e) = false →
      ∃ t mj mi, unixDeviceAttributes host (filepathJoin dp e) = .ok (t, mj, mi)) :
    removeLoop host dp encs ours rc = .ok
      { rc with
        mounts := rc.mounts ++ (ours.filter fun e => !(encs.contains (encodedDest e))).map
          (fun e => blankMountEntry (pathNameDecode (encodedDest e)))
        cgroups := rc.cgroups ++ (ours.filter fun e => !(encs.contains (encodedDest e))).map
          (fun e => ("devices.deny", denyValue host dp e)) } := by
  induction ours generalizing rc with
  | nil => simp [removeLoop]
  | cons a as ih =>
    obtain ⟨enc, henc⟩ := Option.isSome_iff_exists.mp (hwf a (List.mem_cons_self a as))
    have hda : encodedDest a = enc := by simp [encodedDest, henc]
    have hwf' : ∀ e ∈ as, (afterLastDot? e).isSome :=
      fun e he => hwf e (List.mem_cons_of_mem a he)
    have hstat' : ∀ e ∈ as, encs.contains (encodedDest e) = false →
        ∃ t mj mi, unixDeviceAttributes host (filepathJoin dp e) = .ok (t, mj, mi) :=
      fun e he hc => hstat e (List.mem_cons_of_mem a he) hc
    simp only [removeLoop, henc]
    cases hc : encs.contains enc with
    | true =>
      have hfil : (a :: as).filter (fun e => !(encs.contains (encodedDest e))) =
          as.filter fun e => !(encs.contains (encodedDest e)) := by
        simp only [List.filter_cons, hda, hc, Bool.not_true, Bool.false_eq_true, if_false]
      rw [if_pos rfl, hfil]
      exact ih hwf' hstat'
    | false =>
      obtain ⟨t, mj, mi, hattr⟩ := hstat a (List.mem_cons_self a as) (by rw [hda]; exact hc)
      have hfil : (a :: as).filter (fun e => !(encs.contains (encodedDest e))) =
          a :: (as.filter fun e => !(encs.contains (encodedDest e))) := by
        simp only [List.filter_cons, hda, hc, Bool.not_false, if_true]
      simp only [hc, Bool.false_eq_true, if_false, hattr]
      rw [ih hwf' hstat', hfil]
      have hdv : denyValue host dp a = s!"{t} {mj}:{mi} rwm" := by
        simp [denyValue, hattr]
      simp [hda, hdv, List.map_cons, List.append_assoc]

/-- A non-duplicate entry whose host file fails to stat makes the
removal loop fail. -/
theorem removeLoop_error_statfail (host : Host) (dp : String) (encs ours : List String)
    (rc : RunConfig) (e emsg : String)
    (hwf : ∀ x ∈ ours, (afterLastDot? x).isSome)
    (he : e ∈ ours) (hdupe : encs.contains (encodedDest e) = false)
    (hfail : unixDeviceAttributes host (filepathJoin dp e) = .error emsg) :
    ∃ msg, removeLoop host dp encs ours rc = .error msg := by
  induction ours generalizing rc with
  | nil => exact absurd he (List.not_mem_nil e)
  | cons a as ih =>
    obtain ⟨enc, henc⟩ := Option.isSome_iff_exists.mp (hwf a (List.mem_cons_self a as))
    have hda : encodedDest a = enc := by simp [encodedDest, henc]
    have hwf' : ∀ x ∈ as, (afterLastDot? x).isSome :=
      fun x hx => hwf x (List.mem_cons_of_mem a hx)
    simp only [removeLoop, henc]
    cases hc : encs.contains enc with
    | true =>
      rcases List.mem_cons.mp he with he' | he'
      · subst he'
        rw [hda, hc] at hdupe
        cases hdupe
      · obtain ⟨msg, hmsg⟩ := ih rc hwf' he'
        exact ⟨msg, by rw [if_pos rfl]; exact hmsg⟩
    | false =>
      rcases List.mem_cons.mp he with he' | he'
      · subst he'
        refine ⟨s!"Failed to get UNIX device attributes for {goQuote (filepathJoin dp e)}: {emsg}", ?_⟩
        simp only [hc, Bool.false_eq_true, if_false, hfail]
      · cases hattr : unixDeviceAttributes host (filepathJoin dp a) with
        | error m2 =>
          refine ⟨s!"Failed to get UNIX device attributes for {goQuote (filepathJoin dp a)}: {m2}", ?_⟩
          simp only [hc, Bool.false_eq_true, if_false, hattr]
        | ok attrs =>
          obtain ⟨t, mj, mi⟩ := attrs
          obtain ⟨msg, hmsg⟩ := ih _ hwf' he'
          refine ⟨msg, ?_⟩
          simp only [hc, Bool.false_eq_true, if_false, hattr]
          exact hmsg

/-- C3: `unixDeviceRemove` appends, for each matching entry whose
encoded destination also appears in a non-matching entry's name, no
unmount and no deny entry; and for each matching entry without such a
sibling exactly one unmount entry (target path only, the decoded
destination) and exactly one "devices.deny" entry re-derived by
stat-ing the host device file, in order; a stat failure there fails
the whole call.  Hence removing a sibling emits nothing while another
sibling with the same destination path still exists. -/
theorem unixDeviceRemove_sibling_protection :
    (∀ (host : Host) (dents : List String) (dp tp dn op : String) (rc : RunConfig),
      (∀ e ∈ dents, (afterLastDot? e).isSome) →
      (∀ e ∈ dents.filter (fun devName => goHasPfx devName (removeOurPfx tp dn op)),
        ((dents.filter fun devName => !(goHasPfx devName (removeOurPfx tp dn op))).map
          encodedDest).contains (encodedDest e) = false →
        ∃ t mj mi, unixDeviceAttributes host (filepathJoin dp e) = .ok (t, mj, mi)) →
      unixDeviceRemove host (.ok dents) dp tp dn op rc = .ok
        { rc with
          mounts := rc.mounts ++
            ((dents.filter fun devName => goHasPfx devName (removeOurPfx tp dn op)).filter
              (fun e => !(((dents.filter fun devName =>
                !(goHasPfx devName (removeOurPfx tp dn op))).map encodedDest).contains
                  (encodedDest e)))).map
              (fun e => blankMountEntry (pathNameDecode (encodedDest e)))
          cgroups := rc.cgroups ++
            ((dents.filter fun devName => goHasPfx devName (removeOurPfx tp dn op)).filter
              (fun e => !(((dents.filter fun devName =>
                !(goHasPfx devName (removeOurPfx tp dn op))).map encodedDest).contains
                  (encodedDest e)))).map
              (fun e => ("devices.deny", denyValue host dp e)) }) ∧
    (∀ (host : Host) (dents : List String) (dp tp dn op : String) (rc : RunConfig)
        (e emsg : String),
      (∀ x ∈ dents, (afterLastDot? x).isSome) →
      e ∈ dents →
      goHasPfx e (removeOurPfx tp dn op) = true →
      ((dents.filter fun devName => !(goHasPfx devName (removeOurPfx tp dn op))).map
        encodedDest).contains (encodedDest e) = false →
      unixDeviceAttributes host (filepathJoin dp e) = .error emsg →
      ∃ msg, unixDeviceRemove host (.ok dents) dp tp dn op rc = .error msg) := by
  constructor
  · intro host dents dp tp dn op rc hwf hstat
    have hothers := collectOtherEncs_ok
      (dents.filter fun devName => !(goHasPfx devName (removeOurPfx tp dn op)))
      (fun e he => hwf e (List.mem_of_mem_filter he))
    simp only [unixDeviceRemove, pure_bind, hothers, except_ok_bind]
    exact removeLoop_ok (fun e he => hwf e (List.mem_of_mem_filter he)) hstat
  · intro host dents dp tp dn op rc e emsg hwf he hp hdupe hfail
    have hothers := collectOtherEncs_ok
      (dents.filter fun devName => !(goHasPfx devName (removeOurPfx tp dn op)))
      (fun x hx => hwf x (List.mem_of_mem_filter hx))
    have he' : e ∈ dents.filter fun devName => goHasPfx devName (removeOurPfx tp dn op) :=
      List.mem_filter.mpr ⟨he, hp⟩
    obtain ⟨msg, hmsg⟩ := removeLoop_error_statfail host dp _ _ rc e emsg
      (fun x hx => hwf x (List.mem_of_mem_filter hx)) he' hdupe hfail
    refine ⟨msg, ?_⟩
    simp only [unixDeviceRemove, pure_bind, hothers, except_ok_bind]
    exact hmsg

/-- C3 witness: a concrete directory where one matching entry shares
its destination with another device (nothing emitted for it) and one
does not (one unmount and one deny emitted); plus a remove on a pure
duplicate emitting nothing, and a stat failure failing the call. -/
theorem unixDeviceRemove_sibling_protection_witness :
    ((∀ e ∈ ["unix.d1.dev-a", "unix.d1.dev-b", "unix.d2.dev-a"], (afterLastDot? e).isSome) ∧
      unixDeviceRemove hostAllOk (.ok ["unix.d1.dev-a", "unix.d1.dev-b", "unix.d2.dev-a"])
        "/var/devices" "unix" "d1" "" ⟨[], []⟩ =
        .ok ⟨[⟨none, "dev/b", "", [], ""⟩], [("devices.deny", "c 1:3 rwm")]⟩) ∧
    (unixDeviceRemove hostAllOk (.ok ["unix.d1.dev-a", "unix.d2.dev-a"])
        "/var/devices" "unix" "d1" "" ⟨[], []⟩ = .ok ⟨[], []⟩) ∧
    (unixDeviceAttributes hostStatFail (filepathJoin "/var/devices" "unix.d1.dev-b") =
        .error "no such file or directory" ∧
      ∃ msg, unixDeviceRemove hostStatFail (.ok ["unix.d1.dev-b"])
        "/var/devices" "unix" "d1" "" ⟨[], []⟩ = .error msg) :=
  ⟨⟨by decide,
    unixDeviceRemove_sibling_protection.1 hostAllOk
      ["unix.d1.dev-a", "unix.d1.dev-b", "unix.d2.dev-a"] "/var/devices" "unix" "d1" ""
      ⟨[], []⟩ (by decide) (fun e he hnd => ⟨"c", 1, 3, rfl⟩)⟩,
   unixDeviceRemove_sibling_protection.1 hostAllOk
      ["unix.d1.dev-a", "unix.d2.dev-a"] "/var/devices" "unix" "d1" ""
      ⟨[], []⟩ (by decide) (fun e he hnd => ⟨"c", 1, 3, rfl⟩),
   ⟨by decide,
    unixDeviceRemove_sibling_protection.2 hostStatFail ["unix.d1.dev-b"]
      "/var/devices" "unix" "d1" "" ⟨[], []⟩ "unix.d1.dev-b" "no such file or directory"
      (by decide) (by decide) (by decide) (by decide) (by decide)⟩⟩

end LXD
